import Mathlib

/-!
Verification development for the gpucachesim trace-driven GPU simulator.

The definitions below are a shallow embedding of the cache hierarchy
(`src/cache/data.rs`, `src/ported/l1/base.rs`, `src/ported/l1/readonly.rs`,
`src/ported/l2.rs`), the GTO scheduler (`src/ported/scheduler.rs`) and the
local-memory address translation (`src/core.rs`).

Rust state mutation becomes explicit state passing; functions that can
panic (the `unimplemented` and `panic` macros, `unwrap` and `expect`)
return `Option`, with `none` modelling the abort.  Addresses and machine
integers are modelled as `Nat`; the address arithmetic involved never
wraps for the configurations exercised here, and the local-memory
disjointness theorem carries an explicit no-overflow bound so that the
`Nat` model agrees with the `u64` computation of the source.

Modules of the repository that the cache code calls but whose sources are
not part of the snapshot (`tag_array.rs`, `mshr.rs`, `cache_block`,
`mem_fetch.rs`, the memory-controller trait) are modelled from the
specification; each such definition carries a doc comment starting with
"Modelled from the spec".  Everything else is translated directly from
the Rust sources named in its doc comment.
-/

set_option linter.unusedVariables false

/-- Sector size in bytes (`SECTOR_SIZE` in `mem_sub_partition`). -/
def SECTOR_SIZE : Nat := 32

/-- Number of sectors per line (`SECTOR_CHUNCK_SIZE` in `mem_sub_partition`). -/
def SECTOR_CHUNCK_SIZE : Nat := 4

/-- Cache request status (`cache::RequestStatus`). -/
inductive RequestStatus
  | HIT
  | HIT_RESERVED
  | MISS
  | RESERVATION_FAIL
  | SECTOR_MISS
  | MSHR_HIT
deriving DecidableEq, Repr

/-- Reservation failure sub-reason (`cache::ReservationFailure`). -/
inductive ReservationFailure
  | MISS_QUEUE_FULL
  | MSHR_MERGE_ENTRY_FAIL
  | MSHR_ENTRY_FAIL
  | LINE_ALLOC_FAIL
deriving DecidableEq, Repr

/-- Per-access statistic event (`cache::AccessStat`). -/
inductive AccessStat
  | Status : RequestStatus → AccessStat
  | ReservationFailure : ReservationFailure → AccessStat
deriving DecidableEq, Repr

/-- Memory access kind (`mem_fetch::access::Kind`), restricted to the
variants the embedded code paths use. -/
inductive AccessKind
  | GLOBAL_ACC_R
  | LOCAL_ACC_R
  | INST_ACC_R
  | GLOBAL_ACC_W
  | LOCAL_ACC_W
  | L1_WRBK_ACC
  | L2_WRBK_ACC
  | L1_WR_ALLOC_R
  | L2_WR_ALLOC_R
deriving DecidableEq, Repr

/-- Write policy (`cache::config::WritePolicy`). -/
inductive WritePolicy
  | READ_ONLY
  | WRITE_BACK
  | WRITE_THROUGH
  | WRITE_EVICT
  | LOCAL_WB_GLOBAL_WT
deriving DecidableEq, Repr

/-- Write allocate policy (`cache::config::WriteAllocatePolicy`). -/
inductive WriteAllocatePolicy
  | NO_WRITE_ALLOCATE
  | WRITE_ALLOCATE
  | FETCH_ON_WRITE
  | LAZY_FETCH_ON_READ
deriving DecidableEq, Repr

/-- Allocation policy (`config::CacheAllocatePolicy`). -/
inductive AllocatePolicy
  | ON_MISS
  | ON_FILL
deriving DecidableEq, Repr

/-- MSHR kind (`mshr::Kind`). -/
inductive MshrKind
  | ASSOC
  | SECTOR_ASSOC
deriving DecidableEq, Repr

/-- Fetch status (`mem_fetch::Status`), restricted to the states the
embedded code touches. -/
inductive MemFetchStatus
  | INITIALIZED
  | IN_L1_MISS_QUEUE
deriving DecidableEq, Repr

/-- Cache geometry and policy configuration (`config::CacheConfig`). -/
structure CacheConfig where
  line_size : Nat
  atom_size : Nat
  associativity : Nat
  num_sets : Nat
  write_policy : WritePolicy
  write_allocate_policy : WriteAllocatePolicy
  allocate_policy : AllocatePolicy
  mshr_kind : MshrKind
  mshr_entries : Nat
  mshr_max_merge : Nat
  miss_queue_size : Nat
  data_port_width : Nat
deriving DecidableEq, Repr

/-- Align an address down to a multiple of `sz`; for a power-of-two `sz`
this is the bit mask `addr AND NOT (sz - 1)` used by the source. -/
def alignDown (addr sz : Nat) : Nat := sz * (addr / sz)

/-- Block address of an address: `addr` aligned down to the line size
(spec section 3, implemented by the cache controller generic). -/
def CacheConfig.block_addr (cfg : CacheConfig) (addr : Nat) : Nat :=
  alignDown addr cfg.line_size

/-- MSHR address of an address: `addr` aligned down to the atom size
(spec section 3, implemented by the cache controller generic). -/
def CacheConfig.mshr_addr (cfg : CacheConfig) (addr : Nat) : Nat :=
  alignDown addr cfg.atom_size

/-- Physical (raw/tlx) address record (spec section 3 `PhysicalAddress`):
`(chip, bank, row, column, sub_partition)`. -/
structure PhysicalAddress where
  chip : Nat
  bank : Nat
  row : Nat
  column : Nat
  sub_partition : Nat
deriving DecidableEq, Repr

/-- Modelled from the spec: the `MemAccess` record of `mem_fetch::access`
(the module is not part of the snapshot).  The byte mask is a 128-bit
mask kept as a `Nat`; the sector mask is 4 bits kept as a list. -/
structure MemAccess where
  kind : AccessKind
  addr : Nat
  allocation : Option Nat
  req_size_bytes : Nat
  is_write : Bool
  warp_active_mask : Nat
  byte_mask : Nat
  sector_mask : List Bool
deriving DecidableEq, Repr

/-- Modelled from the spec: `mem_fetch::MemFetch` (module not in the
snapshot).  Fetches are identified by a stable unique id `uid` (spec
section 3: compared by a stable unique id assigned at construction);
`is_atomic` abstracts the atomic flag of the originating instruction. -/
structure MemFetch where
  uid : Nat
  access : MemAccess
  is_atomic : Bool
  warp_id : Nat
  core_id : Nat
  cluster_id : Nat
  physical_addr : PhysicalAddress
  partition_addr : Nat
  status : MemFetchStatus
deriving DecidableEq, Repr

/-- Data size of a fetch (`MemFetch::data_size`, the request size of its
access record). -/
def MemFetch.data_size (f : MemFetch) : Nat := f.access.req_size_bytes

/-- Address of a fetch (`MemFetch::addr`). -/
def MemFetch.addr (f : MemFetch) : Nat := f.access.addr

/-- Access kind of a fetch (`MemFetch::access_kind`). -/
def MemFetch.access_kind (f : MemFetch) : AccessKind := f.access.kind

/-- Whether the fetch is a write (`MemFetch::is_write`). -/
def MemFetch.is_write (f : MemFetch) : Bool := f.access.is_write

/-- Set the status of a fetch (`MemFetch::set_status`; the time stamp the
source records alongside is not modelled). -/
def MemFetch.set_status (f : MemFetch) (s : MemFetchStatus) : MemFetch :=
  { f with status := s }

/-- Modelled from the spec: per-sector block status
(`cache_block::Status`, module not in the snapshot). -/
inductive SectorStatus
  | INVALID
  | RESERVED
  | VALID
  | MODIFIED
deriving DecidableEq, Repr

/-- Modelled from the spec: a cache line with per-sector state (spec
section 3 `CacheBlock`): tag/block address, per-sector status, readable
bits, dirty byte mask, last access and fill time, owning allocation. -/
structure CacheBlock where
  block_addr : Nat
  sector_status : List SectorStatus
  readable : List Bool
  dirty_byte_mask : Nat
  last_access_time : Nat
  fill_time : Nat
  allocation : Option Nat
deriving DecidableEq, Repr

/-- An all-invalid block used to pad tag-array lookups. -/
def CacheBlock.invalid : CacheBlock :=
  { block_addr := 0
    sector_status := [.INVALID, .INVALID, .INVALID, .INVALID]
    readable := [false, false, false, false]
    dirty_byte_mask := 0
    last_access_time := 0
    fill_time := 0
    allocation := none }

/-- A block is invalid when every sector is INVALID. -/
def CacheBlock.is_invalid (b : CacheBlock) : Bool :=
  b.sector_status.all (· == .INVALID)

/-- A block is reserved when some sector is RESERVED. -/
def CacheBlock.is_reserved (b : CacheBlock) : Bool :=
  b.sector_status.any (· == .RESERVED)

/-- A block is modified when some sector is MODIFIED
(`CacheBlock::is_modified`). -/
def CacheBlock.is_modified (b : CacheBlock) : Bool :=
  b.sector_status.any (· == .MODIFIED)

/-- Set the status of every sector selected by the mask
(`CacheBlock::set_status`). -/
def CacheBlock.set_status (b : CacheBlock) (s : SectorStatus)
    (mask : List Bool) : CacheBlock :=
  let padded := mask ++ List.replicate b.sector_status.length false
  let updated := (b.sector_status.zip padded).map (fun p => if p.2 then s else p.1)
  { b with sector_status := updated }

/-- Merge the byte mask of a write into the dirty byte mask
(`CacheBlock::set_byte_mask`). -/
def CacheBlock.set_byte_mask (b : CacheBlock) (mask : Nat) : CacheBlock :=
  { b with dirty_byte_mask := Nat.lor b.dirty_byte_mask mask }

/-- Set the readable bit of every sector selected by the mask
(`CacheBlock::set_readable`). -/
def CacheBlock.set_readable (b : CacheBlock) (r : Bool)
    (mask : List Bool) : CacheBlock :=
  let padded := mask ++ List.replicate b.readable.length false
  let updated := (b.readable.zip padded).map (fun p => if p.2 then r else p.1)
  { b with readable := updated }

/-- Number of MODIFIED sectors of a block, used to size writebacks. -/
def CacheBlock.num_modified_sectors (b : CacheBlock) : Nat :=
  (b.sector_status.filter (· == .MODIFIED)).length

/-- Information about a replaced line (spec section 3
`EvictedBlockInfo`). -/
structure EvictedBlockInfo where
  block_addr : Nat
  allocation : Option Nat
  modified_size : Nat
  byte_mask : Nat
  sector_mask : List Bool
deriving DecidableEq, Repr

/-- Result of a side-effectful tag-array access
(`tag_array::AccessStatus`). -/
structure TagAccessStatus where
  cache_index : Option Nat
  writeback : Bool
  evicted : Option EvictedBlockInfo
  status : RequestStatus
deriving DecidableEq, Repr

/-- Modelled from the spec: the tag array (spec section 4.1;
`tag_array.rs` is not in the snapshot).  `blocks` is the flattened
`num_sets x associativity` array (way `w` of set `s` lives at index
`s * associativity + w`); of the counters only `num_dirty`, the one the
claims are about, is kept. -/
structure TagArray where
  blocks : List CacheBlock
  num_dirty : Nat
deriving DecidableEq, Repr

/-- Read a block of the tag array (`TagArray::get_block`). -/
def TagArray.get_block (ta : TagArray) (idx : Nat) : CacheBlock :=
  ta.blocks.getD idx CacheBlock.invalid

/-- Replace a block of the tag array (`TagArray::get_block_mut` followed
by in-place mutation). -/
def TagArray.set_block (ta : TagArray) (idx : Nat) (b : CacheBlock) :
    TagArray :=
  { ta with blocks := ta.blocks.set idx b }

/-- Whether every sector requested by the mask is valid (VALID or
MODIFIED) and readable. -/
def sectorsAllReadable (b : CacheBlock) (mask : List Bool) : Bool :=
  (List.range SECTOR_CHUNCK_SIZE).all fun i =>
    !(mask.getD i false) ||
      (((b.sector_status.getD i .INVALID == .VALID) ||
        (b.sector_status.getD i .INVALID == .MODIFIED)) &&
       b.readable.getD i false)

/-- Whether some sector requested by the mask is RESERVED. -/
def sectorsAnyReserved (b : CacheBlock) (mask : List Bool) : Bool :=
  (List.range SECTOR_CHUNCK_SIZE).any fun i =>
    (mask.getD i false) && (b.sector_status.getD i .INVALID == .RESERVED)

/-- The ways of the set that a block address maps to, paired with their
flat tag-array indices. -/
def TagArray.setWays (cfg : CacheConfig) (ta : TagArray)
    (block_addr : Nat) : List (Nat × CacheBlock) :=
  let set_index := (block_addr / cfg.line_size) % cfg.num_sets
  (List.range cfg.associativity).map fun w =>
    (set_index * cfg.associativity + w,
     ta.get_block (set_index * cfg.associativity + w))

/-- Least-recently-used entry of a list of ways (smallest
`last_access_time`; earliest way wins ties). -/
def lruOf (ways : List (Nat × CacheBlock)) : Option (Nat × CacheBlock) :=
  ways.foldl
    (fun acc x =>
      match acc with
      | none => some x
      | some y =>
          if x.2.last_access_time < y.2.last_access_time then some x
          else some y)
    none

/-- Modelled from the spec: `tag_array::probe` (spec section 4.1).
Returns `some (cache_index, status)` with status HIT, HIT_RESERVED,
SECTOR_MISS, or MISS (with a replaceable victim index); `none` encodes
RESERVATION_FAIL (no replaceable victim: every way of the set has a
RESERVED sector).  Replacement is LRU by `last_access_time` among
non-RESERVED ways, with invalid ways used first; the modified-lines
threshold of the source is not modelled. -/
def TagArray.probe (cfg : CacheConfig) (ta : TagArray) (block_addr : Nat)
    (mask : List Bool) : Option (Nat × RequestStatus) :=
  let ways := ta.setWays cfg block_addr
  match ways.find? (fun p => p.2.block_addr == block_addr && !p.2.is_invalid) with
  | some (i, b) =>
      if sectorsAllReadable b mask then some (i, .HIT)
      else if sectorsAnyReserved b mask then some (i, .HIT_RESERVED)
      else some (i, .SECTOR_MISS)
  | none =>
      match ways.find? (fun p => p.2.is_invalid) with
      | some (i, _) => some (i, .MISS)
      | none =>
          match lruOf (ways.filter (fun p => !p.2.is_reserved)) with
          | some (i, _) => some (i, .MISS)
          | none => none

/-- A freshly allocated (reserved) line for a miss: the sectors requested
by the mask become RESERVED, everything else INVALID (spec section 4.1
sector semantics). -/
def reservedLine (block_addr : Nat) (mask : List Bool)
    (allocation : Option Nat) (time : Nat) : CacheBlock :=
  { block_addr := block_addr
    sector_status :=
      (List.range SECTOR_CHUNCK_SIZE).map fun i =>
        if mask.getD i false then .RESERVED else .INVALID
    readable := List.replicate SECTOR_CHUNCK_SIZE false
    dirty_byte_mask := 0
    last_access_time := time
    fill_time := 0
    allocation := allocation }

/-- Evicted-block record of a victim line. -/
def evictedInfoOf (b : CacheBlock) : EvictedBlockInfo :=
  { block_addr := b.block_addr
    allocation := b.allocation
    modified_size := SECTOR_SIZE * b.num_modified_sectors
    byte_mask := b.dirty_byte_mask
    sector_mask := b.sector_status.map (· == .MODIFIED) }

/-- Modelled from the spec: `tag_array::access` (spec section 4.1), the
side-effectful variant of probe.  Updates LRU on a tag match (reserving
the requested sectors on SECTOR_MISS), and on MISS replaces the victim
line, reporting a writeback with `EvictedBlockInfo` when the victim had a
MODIFIED sector (and dropping it from `num_dirty`). -/
def TagArray.access (cfg : CacheConfig) (ta : TagArray) (block_addr : Nat)
    (fetch : MemFetch) (time : Nat) : TagArray × TagAccessStatus :=
  match ta.probe cfg block_addr fetch.access.sector_mask with
  | none =>
      (ta, { cache_index := none, writeback := false, evicted := none
             status := .RESERVATION_FAIL })
  | some (i, .MISS) =>
      let victim := ta.get_block i
      let writeback := victim.is_modified
      let evicted := if writeback then some (evictedInfoOf victim) else none
      let ta :=
        { ta with num_dirty := if writeback then ta.num_dirty - 1 else ta.num_dirty }
      let ta := ta.set_block i
        (reservedLine block_addr fetch.access.sector_mask fetch.access.allocation time)
      (ta, { cache_index := some i, writeback := writeback, evicted := evicted
             status := .MISS })
  | some (i, st) =>
      let b := ta.get_block i
      let b := { b with last_access_time := time }
      let b :=
        if st == .SECTOR_MISS then
          b.set_status .RESERVED
            ((List.range SECTOR_CHUNCK_SIZE).map fun k =>
              (fetch.access.sector_mask.getD k false) &&
                (b.sector_status.getD k .INVALID == .INVALID))
        else b
      (ta.set_block i b,
       { cache_index := some i, writeback := false, evicted := none, status := st })

/-- Modelled from the spec: `tag_array::fill_on_miss` (spec sections 4.1
and 4.3 Fill): the sectors requested by the filling fetch become VALID
and readable at the already-reserved index. -/
def TagArray.fill_on_miss (ta : TagArray) (idx : Nat) (fetch : MemFetch)
    (time : Nat) : TagArray :=
  let b := ta.get_block idx
  let b := b.set_status .VALID fetch.access.sector_mask
  let b := b.set_readable true fetch.access.sector_mask
  ta.set_block idx { b with fill_time := time }

/-- Modelled from the spec: `tag_array::fill_on_fill` (ON_FILL lazily
allocates at response time with a second probe, then fills). -/
def TagArray.fill_on_fill (cfg : CacheConfig) (ta : TagArray)
    (block_addr : Nat) (fetch : MemFetch) (time : Nat) : TagArray :=
  let acc := ta.access cfg block_addr fetch time
  match acc.2.cache_index with
  | some i => acc.1.fill_on_miss i fetch time
  | none => acc.1

/-- Modelled from the spec: the MSHR table (spec section 4.2; `mshr.rs`
is not in the snapshot).  `entries` is an association list keyed by block
address holding the merged fetches in arrival order;
`current_response` is the ready FIFO. -/
structure MshrTable where
  num_entries : Nat
  max_merge : Nat
  entries : List (Nat × List MemFetch)
  current_response : List MemFetch
deriving DecidableEq, Repr

/-- Lookup helper over the association list of MSHR entries. -/
def mshrLookup (entries : List (Nat × List MemFetch)) (addr : Nat) :
    Option (List MemFetch) :=
  match entries.find? (fun e => e.1 == addr) with
  | some e => some e.2
  | none => none

/-- MSHR probe: hit on an in-flight miss (`MshrTable::probe`). -/
def MshrTable.probe (m : MshrTable) (block_addr : Nat) : Bool :=
  (mshrLookup m.entries block_addr).isSome

/-- MSHR full check: per-key merge cap, or total entry cap for a new key
(`MshrTable::full`). -/
def MshrTable.full (m : MshrTable) (block_addr : Nat) : Bool :=
  match mshrLookup m.entries block_addr with
  | some l => m.max_merge ≤ l.length
  | none => m.num_entries ≤ m.entries.length

/-- MSHR add: append the fetch to the merge list of its key, creating the
entry if absent (`MshrTable::add`). -/
def MshrTable.add (m : MshrTable) (block_addr : Nat) (fetch : MemFetch) :
    MshrTable :=
  if (mshrLookup m.entries block_addr).isSome then
    { m with entries :=
        m.entries.map fun e =>
          if e.1 == block_addr then (e.1, e.2 ++ [fetch]) else e }
  else
    { m with entries := m.entries ++ [(block_addr, [fetch])] }

/-- MSHR mark-ready: move the fetches of the entry to the ready FIFO and
report whether any merged fetch was atomic (`MshrTable::mark_ready`);
`none` when no entry exists for the key. -/
def MshrTable.mark_ready (m : MshrTable) (block_addr : Nat)
    (fetch : MemFetch) : MshrTable × Option Bool :=
  match mshrLookup m.entries block_addr with
  | some l =>
      ({ m with
          entries := m.entries.filter (fun e => !(e.1 == block_addr))
          current_response := m.current_response ++ l },
       some (l.any (·.is_atomic)))
  | none => (m, none)

/-- MSHR next-access: pop the head of the ready FIFO
(`MshrTable::next_access`). -/
def MshrTable.next_access (m : MshrTable) : MshrTable × Option MemFetch :=
  match m.current_response with
  | [] => (m, none)
  | f :: rest => ({ m with current_response := rest }, some f)

/-- Cache event (`cache::Event` / `cache::EventKind`). -/
inductive Event
  | READ_REQUEST_SENT
  | WRITE_REQUEST_SENT
  | WRITE_BACK_REQUEST_SENT : Option EvictedBlockInfo → Event
  | WRITE_ALLOCATE_SENT
deriving DecidableEq, Repr

/-- First writeback event of an event list
(`mem_sub_partition::was_writeback_sent`). -/
def was_writeback_sent (events : List Event) : Option (Option EvictedBlockInfo) :=
  events.findSome? fun e =>
    match e with
    | .WRITE_BACK_REQUEST_SENT ev => some ev
    | _ => none

/-- Port bandwidth bookkeeping (`BandwidthManager` in
`src/ported/l1/base.rs`). -/
structure BandwidthManager where
  data_port_occupied_cycles : Nat
  fill_port_occupied_cycles : Nat
deriving DecidableEq, Repr

/-- Data-port availability (`BandwidthManager::has_free_data_port`,
`src/ported/l1/base.rs` lines 114 to 120). -/
def BandwidthManager.has_free_data_port (bw : BandwidthManager) : Bool :=
  bw.data_port_occupied_cycles == 0

/-- Fill-port availability (`BandwidthManager::has_free_fill_port`,
`src/ported/l1/base.rs` lines 123 to 129). -/
def BandwidthManager.has_free_fill_port (bw : BandwidthManager) : Bool :=
  bw.fill_port_occupied_cycles == 0

/-- Charge the data port for an access outcome
(`BandwidthManager::use_data_port`, `src/ported/l1/base.rs` lines 46 to
81); `none` models the panic on an unexpected status. -/
def BandwidthManager.use_data_port (bw : BandwidthManager)
    (cfg : CacheConfig) (data_size : Nat) (access_status : RequestStatus)
    (events : List Event) : Option BandwidthManager :=
  let port_width := cfg.data_port_width
  match access_status with
  | .HIT =>
      let data_cycles := data_size / port_width +
        (if data_size % port_width > 0 then 1 else 0)
      some { bw with data_port_occupied_cycles :=
               bw.data_port_occupied_cycles + data_cycles }
  | .HIT_RESERVED | .MISS =>
      match was_writeback_sent events with
      | some evicted_block =>
          match evicted_block with
          | some evicted =>
              let data_cycles := evicted.modified_size / port_width
              some { bw with data_port_occupied_cycles :=
                       bw.data_port_occupied_cycles + data_cycles }
          | none => none
      | none => some bw
  | .SECTOR_MISS | .RESERVATION_FAIL => some bw
  | _ => none

/-- Charge the fill port for a fill (`BandwidthManager::use_fill_port`,
`src/ported/l1/base.rs` lines 84 to 95). -/
def BandwidthManager.use_fill_port (bw : BandwidthManager)
    (cfg : CacheConfig) : BandwidthManager :=
  let fill_cycles := cfg.atom_size / cfg.data_port_width
  { bw with fill_port_occupied_cycles := bw.fill_port_occupied_cycles + fill_cycles }

/-- Replenish port bandwidth each cycle
(`BandwidthManager::replenish_port_bandwidth`). -/
def BandwidthManager.replenish_port_bandwidth (bw : BandwidthManager) :
    BandwidthManager :=
  { data_port_occupied_cycles := bw.data_port_occupied_cycles - 1
    fill_port_occupied_cycles := bw.fill_port_occupied_cycles - 1 }

/-- Pending-fill record of an in-flight miss (`PendingRequest` in
`src/ported/l1/base.rs` lines 132 to 143). -/
structure PendingRequest where
  valid : Bool
  block_addr : Nat
  addr : Nat
  cache_index : Nat
  data_size : Nat
  pending_reads : Nat
deriving DecidableEq, Repr

/-- Recorded statistics: the sequence of `stats.inc(access_kind, stat, 1)`
calls (the per-allocation split of the newer stats interface is not
modelled). -/
abbrev Stats := List (AccessKind × AccessStat)

/-- The base cache (`Base` in `src/ported/l1/base.rs`): tag array, MSHR
table, bounded miss queue, pending-fill map (keyed by the stable fetch
id), bandwidth manager and recorded statistics. -/
structure BaseCache where
  cache_config : CacheConfig
  miss_queue : List MemFetch
  miss_queue_status : MemFetchStatus
  mshrs : MshrTable
  tag_array : TagArray
  pending : List (Nat × PendingRequest)
  bandwidth : BandwidthManager
  stats : Stats

/-- Whether `n` more misses fit into the miss queue this cycle
(`Base::miss_queue_can_fit`, `src/ported/l1/base.rs` lines 243 to 245):
`miss_queue.len() + n < miss_queue_size`. -/
def BaseCache.miss_queue_can_fit (b : BaseCache) (n : Nat) : Bool :=
  b.miss_queue.length + n < b.cache_config.miss_queue_size

/-- Whether the miss queue is full (`Base::miss_queue_full`,
`src/ported/l1/base.rs` lines 250 to 252). -/
def BaseCache.miss_queue_full (b : BaseCache) : Bool :=
  b.cache_config.miss_queue_size ≤ b.miss_queue.length

/-- Append a statistics record. -/
def BaseCache.inc_stat (b : BaseCache) (kind : AccessKind)
    (stat : AccessStat) : BaseCache :=
  { b with stats := b.stats ++ [(kind, stat)] }

/-- Result tuple of `Base::send_read_request`. -/
structure SendReadRequestResult where
  base : BaseCache
  events : List Event
  should_miss : Bool
  writeback : Bool
  evicted : Option EvictedBlockInfo

/-- Read miss handler of the base cache (`Base::send_read_request`,
`src/ported/l1/base.rs` lines 293 to 405).  On an MSHR hit with merge
room it merges the fetch; on a fresh miss with MSHR and miss-queue room
it records a pending fill, rewrites the fetch to `atom_size` bytes at the
MSHR address and pushes it onto the miss queue; otherwise it records the
MSHR failure reason.  The returned tuple is, as in the source,
`(should_miss, write_allocate, evicted)`: the second component is the
`write_allocate` argument, while the locally computed `writeback` flag is
dropped.  `none` models the final panic arm. -/
def BaseCache.send_read_request (b : BaseCache) (addr block_addr : Nat)
    (cache_index : Nat) (fetch : MemFetch) (time : Nat)
    (events : List Event) (read_only write_allocate : Bool) :
    Option SendReadRequestResult :=
  let mshr_addr := b.cache_config.mshr_addr fetch.addr
  let mshr_hit := b.mshrs.probe mshr_addr
  let mshr_full := b.mshrs.full mshr_addr
  if mshr_hit && !mshr_full then
    let acc := b.tag_array.access b.cache_config block_addr fetch time
    let writeback := if read_only then false else acc.2.writeback
    let evicted := if read_only then none else acc.2.evicted
    let b := { b with tag_array := acc.1 }
    let b := { b with mshrs := b.mshrs.add mshr_addr fetch }
    let b := b.inc_stat fetch.access_kind (.Status .MSHR_HIT)
    some { base := b, events := events, should_miss := true
           writeback := write_allocate, evicted := evicted }
  else if !mshr_hit && !mshr_full && !b.miss_queue_full then
    let acc := b.tag_array.access b.cache_config block_addr fetch time
    let writeback := if read_only then false else acc.2.writeback
    let evicted := if read_only then none else acc.2.evicted
    let b := { b with tag_array := acc.1 }
    let is_sector_cache := b.cache_config.mshr_kind == .SECTOR_ASSOC
    let pending_entry : PendingRequest :=
      { valid := true, block_addr := mshr_addr, addr := fetch.addr
        cache_index := cache_index, data_size := fetch.data_size
        pending_reads :=
          if is_sector_cache then b.cache_config.line_size / SECTOR_SIZE else 0 }
    let b := { b with pending := b.pending ++ [(fetch.uid, pending_entry)] }
    let fetch :=
      { fetch with access :=
          { fetch.access with req_size_bytes := b.cache_config.atom_size
                              addr := mshr_addr } }
    let b := { b with mshrs := b.mshrs.add mshr_addr fetch }
    let b := { b with miss_queue := b.miss_queue ++ [fetch] }
    let events :=
      if !write_allocate then events ++ [Event.READ_REQUEST_SENT] else events
    some { base := b, events := events, should_miss := true
           writeback := write_allocate, evicted := evicted }
  else if mshr_hit && mshr_full then
    let b := b.inc_stat fetch.access_kind
      (.ReservationFailure .MSHR_MERGE_ENTRY_FAIL)
    some { base := b, events := events, should_miss := false
           writeback := write_allocate, evicted := none }
  else if !mshr_hit && mshr_full then
    let b := b.inc_stat fetch.access_kind (.ReservationFailure .MSHR_ENTRY_FAIL)
    some { base := b, events := events, should_miss := false
           writeback := write_allocate, evicted := none }
  else
    none

/-- Fill of the base cache (`Base::fill`, `src/ported/l1/base.rs` lines
567 to 623).  Looks up and removes the pending record by fetch identity,
charges the fill port, restores the original size and address, fills the
tag array by allocation policy and marks the MSHR entry ready; when a
merged access was atomic it marks the line MODIFIED and only then checks
`is_modified` before incrementing `num_dirty`.  `none` models the
sector-assoc `todo` arm and the `unwrap` of a missing pending entry. -/
def BaseCache.fill (b : BaseCache) (fetch : MemFetch) (time : Nat) :
    Option BaseCache :=
  if b.cache_config.mshr_kind == .SECTOR_ASSOC then none
  else
    match (b.pending.find? (fun e => e.1 == fetch.uid)) with
    | none => none
    | some (_, pending) =>
      let b := { b with pending := b.pending.filter (fun e => !(e.1 == fetch.uid)) }
      let b := { b with bandwidth := b.bandwidth.use_fill_port b.cache_config }
      let fetch :=
        { fetch with access :=
            { fetch.access with req_size_bytes := pending.data_size
                                addr := pending.addr } }
      let b :=
        match b.cache_config.allocate_policy with
        | .ON_MISS =>
            { b with tag_array :=
                b.tag_array.fill_on_miss pending.cache_index fetch time }
        | .ON_FILL =>
            { b with tag_array :=
                b.tag_array.fill_on_fill b.cache_config pending.block_addr fetch time }
      let access_sector_mask := fetch.access.sector_mask
      let access_byte_mask := fetch.access.byte_mask
      let marked := b.mshrs.mark_ready pending.block_addr fetch
      let b := { b with mshrs := marked.1 }
      let has_atomic := marked.2.getD false
      if has_atomic then
        let block := b.tag_array.get_block pending.cache_index
        let block := block.set_status .MODIFIED access_sector_mask
        let block := block.set_byte_mask access_byte_mask
        let b := { b with tag_array := b.tag_array.set_block pending.cache_index block }
        if !block.is_modified then
          some { b with tag_array :=
                   { b.tag_array with num_dirty := b.tag_array.num_dirty + 1 } }
        else
          some b
      else
        some b

/-- Modelled from the spec: the memory-controller interface
(`mcu::MemoryController`, not in the snapshot).  The data cache is
generic over it in the source; here it is a pair of functions producing
the physical address decomposition and the partition address. -/
structure MemController where
  to_physical_address : Nat → PhysicalAddress
  memory_partition_address : Nat → Nat

/-- The data cache (`Data` in `src/cache/data.rs`): a base cache plus the
memory controller and the write-allocate and writeback access kinds. -/
structure DataCache where
  inner : BaseCache
  mem_controller : MemController
  write_alloc_type : AccessKind
  write_back_type : AccessKind

/-- Result of a data-cache handler: updated cache, event list, status. -/
structure HandlerResult where
  cache : DataCache
  events : List Event
  status : RequestStatus

/-- Append a statistics record on the data cache. -/
def DataCache.inc_stat (d : DataCache) (kind : AccessKind)
    (stat : AccessStat) : DataCache :=
  { d with inner := d.inner.inc_stat kind stat }

/-- Send a write or writeback to the lower memory level
(`Data::send_write_request`, `src/cache/data.rs` lines 168 to 179):
record the event, stamp the fetch with the miss-queue status and push it
onto the miss queue. -/
def DataCache.send_write_request (d : DataCache) (fetch : MemFetch)
    (request : Event) (time : Nat) (events : List Event) :
    DataCache × List Event :=
  let events := events ++ [request]
  let fetch := fetch.set_status d.inner.miss_queue_status
  ({ d with inner := { d.inner with miss_queue := d.inner.miss_queue ++ [fetch] } },
   events)

/-- Recompute the readable bits after a write
(`Data::update_readable`, `src/cache/data.rs` lines 114 to 134): for each
sector selected by the fetch, when all of its bytes are dirty the block
becomes readable on all selected sectors. -/
def DataCache.update_readable (d : DataCache) (fetch : MemFetch)
    (cache_index : Nat) : DataCache :=
  let block0 := d.inner.tag_array.get_block cache_index
  let block :=
    (List.range SECTOR_CHUNCK_SIZE).foldl
      (fun block i =>
        let sector_mask := fetch.access.sector_mask
        if sector_mask.getD i false then
          let all_set := (List.range SECTOR_SIZE).all fun k =>
            block.dirty_byte_mask.testBit (i * SECTOR_SIZE + k)
          if all_set then block.set_readable true fetch.access.sector_mask
          else block
        else block)
      block0
  { d with inner :=
      { d.inner with tag_array := d.inner.tag_array.set_block cache_index block } }

/-- Write-back write hit (`Data::write_hit_write_back`,
`src/cache/data.rs` lines 78 to 112): update LRU, mark the selected
sectors MODIFIED, merge the byte mask, increment `num_dirty` when the
block was not previously modified, recompute readable bits, return HIT.
`none` models the `expect` on a missing cache index. -/
def DataCache.write_hit_write_back (d : DataCache) (addr : Nat)
    (cache_index : Nat) (fetch : MemFetch) (time : Nat)
    (events : List Event) (probe_status : RequestStatus) :
    Option HandlerResult :=
  let block_addr := d.inner.cache_config.block_addr addr
  let acc := d.inner.tag_array.access d.inner.cache_config block_addr fetch time
  let d := { d with inner := { d.inner with tag_array := acc.1 } }
  match acc.2.cache_index with
  | none => none
  | some cache_index =>
      let block := d.inner.tag_array.get_block cache_index
      let was_modified_before := block.is_modified
      let block := block.set_status .MODIFIED fetch.access.sector_mask
      let block := block.set_byte_mask fetch.access.byte_mask
      let ta := d.inner.tag_array.set_block cache_index block
      let ta :=
        if !was_modified_before then { ta with num_dirty := ta.num_dirty + 1 }
        else ta
      let d := { d with inner := { d.inner with tag_array := ta } }
      let d := d.update_readable fetch cache_index
      some { cache := d, events := events, status := .HIT }

/-- Read hit (`Data::read_hit`, `src/cache/data.rs` lines 136 to 165):
update LRU; an atomic access additionally marks the line MODIFIED,
incrementing `num_dirty` when it was not modified before.  `none` models
the `expect` on a missing cache index. -/
def DataCache.read_hit (d : DataCache) (addr : Nat) (fetch : MemFetch)
    (time : Nat) (events : List Event) : Option HandlerResult :=
  let block_addr := d.inner.cache_config.block_addr addr
  let acc := d.inner.tag_array.access d.inner.cache_config block_addr fetch time
  let d := { d with inner := { d.inner with tag_array := acc.1 } }
  match acc.2.cache_index with
  | none => none
  | some cache_index =>
      if fetch.is_atomic then
        let block := d.inner.tag_array.get_block cache_index
        let was_modified_before := block.is_modified
        let block := block.set_status .MODIFIED fetch.access.sector_mask
        let block := block.set_byte_mask fetch.access.byte_mask
        let ta := d.inner.tag_array.set_block cache_index block
        let ta :=
          if !was_modified_before then { ta with num_dirty := ta.num_dirty + 1 }
          else ta
        let d := { d with inner := { d.inner with tag_array := ta } }
        some { cache := d, events := events, status := .HIT }
      else
        some { cache := d, events := events, status := .HIT }

/-- Baseline read miss (`Data::read_miss`, `src/cache/data.rs` lines 185
to 288).  If one more miss does not fit into the miss queue, record a
MISS_QUEUE_FULL reservation failure and return RESERVATION_FAIL.
Otherwise call `send_read_request`; when it reports a miss whose
(claimed) writeback flag is set under a non-write-through policy and an
evicted block exists, synthesize a writeback fetch at the evicted block
address (with chip and sub-partition patched from the triggering fetch)
and push it via `send_write_request`, then return MISS. -/
def DataCache.read_miss (d : DataCache) (addr : Nat) (cache_index : Nat)
    (fetch : MemFetch) (time : Nat) (events : List Event)
    (probe_status : RequestStatus) : Option HandlerResult :=
  if !(d.inner.miss_queue_can_fit 1) then
    let d := d.inc_stat fetch.access_kind
      (.ReservationFailure .MISS_QUEUE_FULL)
    some { cache := d, events := events, status := .RESERVATION_FAIL }
  else
    let block_addr := d.inner.cache_config.block_addr addr
    match d.inner.send_read_request addr block_addr cache_index fetch time
        events false false with
    | none => none
    | some res =>
      let d := { d with inner := res.base }
      let events := res.events
      let should_miss := res.should_miss
      let writeback := res.writeback
      let evicted := res.evicted
      let writeback_policy := d.inner.cache_config.write_policy
      if should_miss then
        if writeback && !(writeback_policy == .WRITE_THROUGH) then
          match evicted with
          | some evicted =>
              let is_write := true
              let writeback_access : MemAccess :=
                { kind := d.write_back_type
                  addr := evicted.block_addr
                  allocation := evicted.allocation
                  req_size_bytes := evicted.modified_size
                  is_write := is_write
                  warp_active_mask := fetch.access.warp_active_mask
                  byte_mask := evicted.byte_mask
                  sector_mask := evicted.sector_mask }
              let physical_addr0 :=
                d.mem_controller.to_physical_address writeback_access.addr
              let physical_addr :=
                { physical_addr0 with chip := fetch.physical_addr.chip
                                      sub_partition := fetch.physical_addr.sub_partition }
              let partition_addr :=
                d.mem_controller.memory_partition_address writeback_access.addr
              let writeback_fetch : MemFetch :=
                { uid := fetch.uid + 1
                  access := writeback_access
                  is_atomic := false
                  warp_id := 0
                  core_id := 0
                  cluster_id := 0
                  physical_addr := physical_addr
                  partition_addr := partition_addr
                  status := .INITIALIZED }
              let event := Event.WRITE_BACK_REQUEST_SENT none
              let sent := d.send_write_request writeback_fetch event time events
              some { cache := sent.1, events := sent.2, status := .MISS }
          | none => some { cache := d, events := events, status := .MISS }
        else
          some { cache := d, events := events, status := .MISS }
      else
        some { cache := d, events := events, status := .RESERVATION_FAIL }

/-- Write miss without allocation (`Data::write_miss_no_write_allocate`,
`src/cache/data.rs` lines 290 to 323): when the miss queue is full,
record MISS_QUEUE_FULL and return RESERVATION_FAIL; otherwise push the
write-through fetch and return MISS. -/
def DataCache.write_miss_no_write_allocate (d : DataCache) (addr : Nat)
    (cache_index : Option Nat) (fetch : MemFetch) (time : Nat)
    (events : List Event) (probe_status : RequestStatus) :
    Option HandlerResult :=
  if d.inner.miss_queue_full then
    let d := d.inc_stat fetch.access_kind
      (.ReservationFailure .MISS_QUEUE_FULL)
    some { cache := d, events := events, status := .RESERVATION_FAIL }
  else
    let event := Event.WRITE_REQUEST_SENT
    let sent := d.send_write_request fetch event time events
    some { cache := sent.1, events := sent.2, status := .MISS }

/-- Naive write-allocate write miss
(`Data::write_miss_write_allocate_naive`, `src/cache/data.rs` lines 326
to 492).  Conservatively requires room for the worst case (up to two
miss-queue pushes) and a usable MSHR entry, recording the fine-grained
failure reason otherwise; then pushes the write-through fetch, builds the
synthesized allocation read and sends it through `send_read_request`; on
a miss with a writeback-flagged modified eviction (and a non
write-through policy) it additionally pushes a writeback fetch.  As in
the source, the writeback fetch is built with the `physical_addr` of the
allocation read (derived from the triggering fetch address); the
locally patched `tlx_addr` is computed but not used.  `none` models the
panic on an impossible failure reason and the panics inside callees. -/
def DataCache.write_miss_write_allocate_naive (d : DataCache) (addr : Nat)
    (cache_index : Option Nat) (fetch : MemFetch) (time : Nat)
    (events : List Event) (probe_status : RequestStatus) :
    Option HandlerResult :=
  let block_addr := d.inner.cache_config.block_addr addr
  let mshr_addr := d.inner.cache_config.mshr_addr fetch.addr
  let mshr_hit := d.inner.mshrs.probe mshr_addr
  let mshr_free := !d.inner.mshrs.full mshr_addr
  let mshr_full := !(d.inner.miss_queue_can_fit 2)
  let mshr_miss_but_free := !mshr_hit && mshr_free && !d.inner.miss_queue_full
  if mshr_full || !(mshr_miss_but_free || (mshr_hit && mshr_free)) then
    if mshr_full then
      let d := d.inc_stat fetch.access_kind (.ReservationFailure .MISS_QUEUE_FULL)
      some { cache := d, events := events, status := .RESERVATION_FAIL }
    else if mshr_hit && !mshr_free then
      let d := d.inc_stat fetch.access_kind
        (.ReservationFailure .MSHR_MERGE_ENTRY_FAIL)
      some { cache := d, events := events, status := .RESERVATION_FAIL }
    else if !mshr_hit && !mshr_free then
      let d := d.inc_stat fetch.access_kind (.ReservationFailure .MSHR_ENTRY_FAIL)
      some { cache := d, events := events, status := .RESERVATION_FAIL }
    else
      none
  else
    let event := Event.WRITE_REQUEST_SENT
    let sent := d.send_write_request fetch event time events
    let d := sent.1
    let events := sent.2
    let is_write := false
    let new_access : MemAccess :=
      { kind := d.write_alloc_type
        addr := fetch.addr
        allocation := fetch.access.allocation
        req_size_bytes := d.inner.cache_config.atom_size
        is_write := is_write
        warp_active_mask := fetch.access.warp_active_mask
        byte_mask := fetch.access.byte_mask
        sector_mask := fetch.access.sector_mask }
    let physical_addr := d.mem_controller.to_physical_address new_access.addr
    let partition_addr := d.mem_controller.memory_partition_address new_access.addr
    let new_fetch : MemFetch :=
      { uid := fetch.uid + 1
        access := new_access
        is_atomic := false
        warp_id := fetch.warp_id
        core_id := fetch.core_id
        cluster_id := fetch.cluster_id
        physical_addr := physical_addr
        partition_addr := partition_addr
        status := .INITIALIZED }
    match cache_index with
    | none => some { cache := d, events := events, status := .RESERVATION_FAIL }
    | some cache_index =>
      let is_read_only := false
      let is_write_allocate := true
      match d.inner.send_read_request addr block_addr cache_index new_fetch
          time events is_read_only is_write_allocate with
      | none => none
      | some res =>
        let d := { d with inner := res.base }
        let events := res.events ++ [Event.WRITE_ALLOCATE_SENT]
        let should_miss := res.should_miss
        let writeback := res.writeback
        let evicted := res.evicted
        if should_miss then
          let not_write_through :=
            !(d.inner.cache_config.write_policy == .WRITE_THROUGH)
          if writeback && not_write_through then
            match evicted with
            | some evicted =>
                let is_write := true
                let writeback_access : MemAccess :=
                  { kind := d.write_back_type
                    addr := evicted.block_addr
                    allocation := evicted.allocation
                    req_size_bytes := evicted.modified_size
                    is_write := is_write
                    warp_active_mask := fetch.access.warp_active_mask
                    byte_mask := evicted.byte_mask
                    sector_mask := evicted.sector_mask }
                let tlx_addr0 :=
                  d.mem_controller.to_physical_address writeback_access.addr
                let tlx_addr :=
                  { tlx_addr0 with chip := fetch.physical_addr.chip
                                   sub_partition := fetch.physical_addr.sub_partition }
                let wb_partition_addr :=
                  d.mem_controller.memory_partition_address writeback_access.addr
                let writeback_fetch : MemFetch :=
                  { uid := fetch.uid + 2
                    access := writeback_access
                    is_atomic := false
                    warp_id := 0
                    core_id := 0
                    cluster_id := 0
                    physical_addr := physical_addr
                    partition_addr := wb_partition_addr
                    status := .INITIALIZED }
                let event := Event.WRITE_BACK_REQUEST_SENT (some evicted)
                let sent := d.send_write_request writeback_fetch event time events
                some { cache := sent.1, events := sent.2, status := .MISS }
            | none => some { cache := d, events := events, status := .MISS }
          else
            some { cache := d, events := events, status := .MISS }
        else
          some { cache := d, events := events, status := .RESERVATION_FAIL }

/-- Write miss dispatch (`Data::write_miss`, `src/cache/data.rs` lines
494 to 517); FETCH_ON_WRITE and LAZY_FETCH_ON_READ are unimplemented in
the source and modelled as `none`. -/
def DataCache.write_miss (d : DataCache) (addr : Nat)
    (cache_index : Option Nat) (fetch : MemFetch) (time : Nat)
    (events : List Event) (probe_status : RequestStatus) :
    Option HandlerResult :=
  match d.inner.cache_config.write_allocate_policy with
  | .NO_WRITE_ALLOCATE =>
      d.write_miss_no_write_allocate addr cache_index fetch time events probe_status
  | .WRITE_ALLOCATE =>
      d.write_miss_write_allocate_naive addr cache_index fetch time events probe_status
  | .FETCH_ON_WRITE => none
  | .LAZY_FETCH_ON_READ => none

/-- Write hit dispatch (`Data::write_hit`, `src/cache/data.rs` lines 519
to 539); only WRITE_BACK is implemented in the source, and READ_ONLY,
WRITE_THROUGH, WRITE_EVICT and LOCAL_WB_GLOBAL_WT are unimplemented,
modelled as `none`. -/
def DataCache.write_hit (d : DataCache) (addr : Nat) (cache_index : Nat)
    (fetch : MemFetch) (time : Nat) (events : List Event)
    (probe_status : RequestStatus) : Option HandlerResult :=
  match d.inner.cache_config.write_policy with
  | .READ_ONLY => none
  | .WRITE_BACK =>
      d.write_hit_write_back addr cache_index fetch time events probe_status
  | .WRITE_THROUGH => none
  | .WRITE_EVICT => none
  | .LOCAL_WB_GLOBAL_WT => none

/-- Dispatch on the result of the tag probe
(`Data::process_tag_probe`, `src/cache/data.rs` lines 545 to 645): route
to the hit or miss handler for reads and writes (a `none` probe, meaning
no replaceable line, records LINE_ALLOC_FAIL and keeps the
RESERVATION_FAIL probe status), then charge the data port. -/
def DataCache.process_tag_probe (d : DataCache) (is_write : Bool)
    (probe : Option (Nat × RequestStatus)) (addr : Nat) (fetch : MemFetch)
    (events : List Event) (time : Nat) : Option HandlerResult :=
  let probe_status :=
    match probe with
    | none => RequestStatus.RESERVATION_FAIL
    | some (_, s) => s
  let data_size := fetch.data_size
  let handled : Option HandlerResult :=
    if is_write then
      let no_allocate_on_write :=
        d.inner.cache_config.write_allocate_policy == .NO_WRITE_ALLOCATE
      match probe with
      | some (cache_index, st) =>
          if st == .HIT then
            d.write_hit addr cache_index fetch time events .RESERVATION_FAIL
          else
            d.write_miss addr (some cache_index) fetch time events st
      | none =>
          if no_allocate_on_write then
            d.write_miss addr none fetch time events .RESERVATION_FAIL
          else
            let d := d.inc_stat fetch.access_kind
              (.ReservationFailure .LINE_ALLOC_FAIL)
            some { cache := d, events := events, status := probe_status }
    else
      match probe with
      | none =>
          let d := d.inc_stat fetch.access_kind
            (.ReservationFailure .LINE_ALLOC_FAIL)
          some { cache := d, events := events, status := probe_status }
      | some (cache_index, st) =>
          if st == .HIT then
            d.read_hit addr fetch time events
          else
            d.read_miss addr cache_index fetch time events st
  match handled with
  | none => none
  | some res =>
      match res.cache.inner.bandwidth.use_data_port
          res.cache.inner.cache_config data_size res.status res.events with
      | none => none
      | some bw =>
          some { res with cache :=
                   { res.cache with inner := { res.cache.inner with bandwidth := bw } } }

/-- Per-access recorded statistic (`Data::access`, `src/cache/data.rs`
lines 712 to 722): HIT_RESERVED when the probe was HIT_RESERVED and the
access did not reservation-fail, SECTOR_MISS when the probe was
SECTOR_MISS and the access did not become MISS, and the access status
otherwise. -/
def select_stat_status (probe_status access_status : RequestStatus) :
    RequestStatus :=
  match probe_status with
  | .HIT_RESERVED =>
      if access_status ≠ .RESERVATION_FAIL then probe_status else access_status
  | .SECTOR_MISS =>
      if access_status ≠ .MISS then probe_status else access_status
  | _ => access_status

/-- Data-cache access (`Data::access` of the `cache::Cache`
implementation, `src/cache/data.rs` lines 667 to 732): probe the tag
array, process the probe, and record the per-access statistic chosen by
`select_stat_status`. -/
def DataCache.cache_access (d : DataCache) (addr : Nat) (fetch : MemFetch)
    (events : List Event) (time : Nat) : Option HandlerResult :=
  let is_write := fetch.is_write
  let access_kind := fetch.access_kind
  let block_addr := d.inner.cache_config.block_addr addr
  let probe :=
    d.inner.tag_array.probe d.inner.cache_config block_addr
      fetch.access.sector_mask
  let probe_status :=
    match probe with
    | none => RequestStatus.RESERVATION_FAIL
    | some (_, s) => s
  match d.process_tag_probe is_write probe addr fetch events time with
  | none => none
  | some res =>
      let stat := select_stat_status probe_status res.status
      let d := res.cache.inc_stat access_kind (.Status stat)
      some { res with cache := d }

/-- The read-only (instruction) cache (`ReadOnly` in
`src/ported/l1/readonly.rs`): a wrapper around the base cache. -/
structure ReadOnlyCache where
  inner : BaseCache

/-- Data-port availability of the read-only cache
(`ReadOnly::has_free_data_port`, `src/ported/l1/readonly.rs` lines 55 to
57): delegates to the bandwidth manager. -/
def ReadOnlyCache.has_free_data_port (c : ReadOnlyCache) : Bool :=
  c.inner.bandwidth.has_free_data_port

/-- Fill-port availability of the read-only cache
(`ReadOnly::has_free_fill_port`, `src/ported/l1/readonly.rs` lines 59 to
61): as written in the source, this delegates to
`inner.has_free_data_port`. -/
def ReadOnlyCache.has_free_fill_port (c : ReadOnlyCache) : Bool :=
  c.inner.bandwidth.has_free_data_port

/-- The L2 data cache wrapper (`DataL2` in `src/ported/l2.rs`); the
intermediate `l1::Data` layer it wraps delegates port queries to the base
cache bandwidth manager. -/
structure DataL2 where
  inner : BaseCache

/-- Data-port availability of the L2 cache (`DataL2::has_free_data_port`,
`src/ported/l2.rs` lines 90 to 92). -/
def DataL2.has_free_data_port (c : DataL2) : Bool :=
  c.inner.bandwidth.has_free_data_port

/-- Fill-port availability of the L2 cache (`DataL2::has_free_fill_port`,
`src/ported/l2.rs` lines 94 to 96): as written in the source, this
delegates to `inner.has_free_data_port`. -/
def DataL2.has_free_fill_port (c : DataL2) : Bool :=
  c.inner.bandwidth.has_free_data_port

/-- A scheduler warp (`SchedulerWarp` in `src/ported/scheduler.rs`),
restricted to the fields its equality and ordering read.  Equality in the
source compares exactly these four fields. -/
structure SchedulerWarp where
  block_id : Nat
  dynamic_warp_id : Nat
  warp_id : Nat
  kernel_id : Nat
deriving DecidableEq, Repr

/-- Exit flag of a warp (`SchedulerWarp::done_exit`,
`src/ported/scheduler.rs` lines 129 to 132: constantly false in this
snapshot). -/
def SchedulerWarp.done_exit (w : SchedulerWarp) : Bool := false

/-- Waiting flag of a warp (`SchedulerWarp::waiting`,
`src/ported/scheduler.rs` lines 134 to 154: constantly false in this
snapshot). -/
def SchedulerWarp.waiting (w : SchedulerWarp) : Bool := false

/-- Warp ordering comparator (`sort_warps_by_oldest_dynamic_id`,
`src/ported/scheduler.rs` lines 165 to 173): finished or waiting warps
order last, otherwise by ascending dynamic warp id. -/
def sort_warps_by_oldest_dynamic_id (lhs rhs : SchedulerWarp) : Ordering :=
  if lhs.done_exit || lhs.waiting then .gt
  else if rhs.done_exit || rhs.waiting then .lt
  else compare lhs.dynamic_warp_id rhs.dynamic_warp_id

/-- Stable insertion sort with a comparator, modelling the stable
`Vec::sort_by` of Rust: an element moves before another only when the
comparator orders it strictly earlier. -/
def sortByOrdering {α : Type} (cmp : α → α → Ordering) : List α → List α
  | [] => []
  | x :: xs => insertOrd cmp x (sortByOrdering cmp xs)
where
  insertOrd (cmp : α → α → Ordering) (x : α) : List α → List α
    | [] => [x]
    | y :: ys =>
        if cmp x y ≠ .gt then x :: y :: ys
        else y :: insertOrd cmp x ys

/-- GTO warp ordering (`GTOScheduler::order_warps`,
`src/ported/scheduler.rs` lines 179 to 252).  Clears the output list and
seeds it with the previously issued warp; sorts the supervised warps with
`sort_warps_by_oldest_dynamic_id`; then extends the output with the
sorted warps, via `take_while` up to (and excluding) the first occurrence
of the previously issued warp, truncated to `num_warps_to_add`.  Returns
the output list together with the sorted supervised list (sorted in
place in the source). -/
def GTOScheduler.order_warps (out : List SchedulerWarp)
    (warps : List SchedulerWarp) (last_issued_warps : List SchedulerWarp)
    (num_warps_to_add : Nat) : List SchedulerWarp × List SchedulerWarp :=
  let out : List SchedulerWarp := []
  let greedy_value := last_issued_warps.head?
  let out :=
    match greedy_value with
    | some g => out ++ [g]
    | none => out
  let sorted := sortByOrdering sort_warps_by_oldest_dynamic_id warps
  let taken :=
    (sorted.takeWhile fun w =>
      match greedy_value with
      | none => true
      | some val => w ≠ val).take num_warps_to_add
  (out ++ taken, sorted)

/-- Local-memory translation configuration: the configuration and core
fields read by `Core::translate_local_memaddr` (`src/core.rs`). -/
structure LocalTranslateConfig where
  local_mem_map : Bool
  max_threads_per_core : Nat
  thread_block_size : Nat
  max_blocks_per_shader : Nat
  core_id : Nat

/-- Thread base address and maximum concurrent thread count of the two
local-memory mapping schemes (`Core::translate_local_memaddr`,
`src/core.rs` lines 112 to 141): the strided scheme when
`local_mem_map` is set, the legacy linear scheme otherwise. -/
def thread_base_max_concurrent (cfg : LocalTranslateConfig)
    (thread_id num_cores : Nat) : Nat × Nat :=
  if cfg.local_mem_map then
    let kernel_padded_threads_per_cta := cfg.thread_block_size
    let kernel_max_cta_per_shader := cfg.max_blocks_per_shader
    let temp :=
      cfg.core_id + num_cores * (thread_id / kernel_padded_threads_per_cta)
    let rest := thread_id % kernel_padded_threads_per_cta
    let thread_base := 4 * (kernel_padded_threads_per_cta * temp + rest)
    let max_concurrent_threads :=
      kernel_padded_threads_per_cta * kernel_max_cta_per_shader * num_cores
    (thread_base, max_concurrent_threads)
  else
    let thread_base := 4 * (cfg.max_threads_per_core * cfg.core_id + thread_id)
    let max_concurrent_threads := num_cores * cfg.max_threads_per_core
    (thread_base, max_concurrent_threads)

/-- Local-memory address translation (`Core::translate_local_memaddr`,
`src/core.rs` lines 101 to 181).  A request of `data_size` bytes at
`local_addr` becomes `data_size / 4` four-byte accesses when
`data_size` is at least 4, and a single sub-4-byte access otherwise.
`LOCAL_GENERIC_START` (a constant of the instruction module, which is
not in the snapshot) is passed explicitly; the debug assertions of the
source become theorem preconditions. -/
def translate_local_memaddr (cfg : LocalTranslateConfig) (local_addr : Nat)
    (thread_id num_cores data_size LOCAL_GENERIC_START : Nat) : List Nat :=
  let tbmc := thread_base_max_concurrent cfg thread_id num_cores
  let thread_base := tbmc.1
  let max_concurrent_threads := tbmc.2
  if 4 ≤ data_size then
    let num_accesses := data_size / 4
    (List.range num_accesses).map fun i =>
      let local_word := local_addr / 4 + i
      local_word * max_concurrent_threads * 4 + thread_base + LOCAL_GENERIC_START
  else
    let local_word := local_addr / 4
    let local_word_offset := local_addr % 4
    [local_word * max_concurrent_threads * 4 + local_word_offset +
      thread_base + LOCAL_GENERIC_START]

/-- Bytes touched by a translated local-memory request: each translated
address covers four bytes when `data_size` is at least 4, and
`data_size` bytes otherwise (each translated address then points at a
sub-word). -/
def translatedBytes (cfg : LocalTranslateConfig) (local_addr : Nat)
    (thread_id num_cores data_size start : Nat) : Set Nat :=
  let addrs := translate_local_memaddr cfg local_addr thread_id num_cores
    data_size start
  let sz := if 4 ≤ data_size then 4 else data_size
  { b | ∃ a ∈ addrs, a ≤ b ∧ b < a + sz }

/-- A write-back, write-allocate, on-miss-allocated cache configuration
(line 128, atom 128, one set, one way, miss queue of 8). -/
def cfgWB : CacheConfig :=
  { line_size := 128, atom_size := 128, associativity := 1, num_sets := 1
    write_policy := .WRITE_BACK, write_allocate_policy := .WRITE_ALLOCATE
    allocate_policy := .ON_MISS, mshr_kind := .ASSOC
    mshr_entries := 8, mshr_max_merge := 4, miss_queue_size := 8
    data_port_width := 32 }

/-- A resident line at block address 0 with a MODIFIED first sector. -/
def modBlock : CacheBlock :=
  { block_addr := 0
    sector_status := [.MODIFIED, .INVALID, .INVALID, .INVALID]
    readable := [true, false, false, false]
    dirty_byte_mask := 3
    last_access_time := 5
    fill_time := 1
    allocation := some 1 }

/-- A one-line tag array holding the modified block; `num_dirty` is 1. -/
def taMod : TagArray := { blocks := [modBlock], num_dirty := 1 }

/-- An empty MSHR table with 8 entries and merge width 4. -/
def mshr0 : MshrTable :=
  { num_entries := 8, max_merge := 4, entries := [], current_response := [] }

/-- Idle bandwidth manager. -/
def bw0 : BandwidthManager :=
  { data_port_occupied_cycles := 0, fill_port_occupied_cycles := 0 }

/-- Base cache state holding the modified line, with empty queues. -/
def base1 : BaseCache :=
  { cache_config := cfgWB, miss_queue := [], miss_queue_status := .IN_L1_MISS_QUEUE
    mshrs := mshr0, tag_array := taMod, pending := [], bandwidth := bw0, stats := [] }

/-- A concrete memory controller: the chip is the address divided by
1000 and the sub partition the address divided by 500, so that the
physical decomposition of the evicted block address differs from the one
carried by the triggering fetch. -/
def mcTest : MemController :=
  { to_physical_address := fun a =>
      { chip := a / 1000, bank := 0, row := 0, column := 0, sub_partition := a / 500 }
    memory_partition_address := fun a => a }

/-- L1 data cache over `base1`. -/
def dataWB : DataCache :=
  { inner := base1, mem_controller := mcTest
    write_alloc_type := .L1_WR_ALLOC_R, write_back_type := .L1_WRBK_ACC }

/-- A 32-byte global read of line 128 (first sector), whose physical
address carries chip 9 and sub partition 7. -/
def readFetch : MemFetch :=
  { uid := 7
    access :=
      { kind := .GLOBAL_ACC_R, addr := 128, allocation := some 2
        req_size_bytes := 32, is_write := false, warp_active_mask := 1
        byte_mask := 0, sector_mask := [true, false, false, false] }
    is_atomic := false, warp_id := 0, core_id := 0, cluster_id := 0
    physical_addr := { chip := 9, bank := 0, row := 0, column := 0, sub_partition := 7 }
    partition_addr := 0, status := .INITIALIZED }

/-- A 32-byte global write of line 128 (first sector), same physical
address as `readFetch`. -/
def writeFetch : MemFetch :=
  { uid := 7
    access :=
      { kind := .GLOBAL_ACC_W, addr := 128, allocation := some 2
        req_size_bytes := 32, is_write := true, warp_active_mask := 1
        byte_mask := 15, sector_mask := [true, false, false, false] }
    is_atomic := false, warp_id := 3, core_id := 0, cluster_id := 0
    physical_addr := { chip := 9, bank := 0, row := 0, column := 0, sub_partition := 7 }
    partition_addr := 0, status := .INITIALIZED }

/-- The write-back data cache with a miss queue of capacity one and an
all-invalid tag array. -/
def dataQ1 : DataCache :=
  { dataWB with inner :=
      { base1 with cache_config := { cfgWB with miss_queue_size := 1 }
                   tag_array := { blocks := [CacheBlock.invalid], num_dirty := 0 } } }

/-- The same cache with a miss queue of capacity two. -/
def dataQ2 : DataCache :=
  { dataWB with inner :=
      { base1 with cache_config := { cfgWB with miss_queue_size := 2 }
                   tag_array := { blocks := [CacheBlock.invalid], num_dirty := 0 } } }

/-- The write-back data cache with the write policy replaced by
write-through. -/
def dataWT : DataCache :=
  { dataWB with inner :=
      { base1 with cache_config := { cfgWB with write_policy := .WRITE_THROUGH } } }

/-- An atomic global read merged into the MSHR entry of line 0. -/
def atomicFetch : MemFetch := { readFetch with is_atomic := true }

/-- Base cache state awaiting the fill of line 0: the line is RESERVED,
a pending record and an MSHR entry holding the atomic fetch exist, and
`num_dirty` is 0. -/
def fillBase : BaseCache :=
  { cache_config := cfgWB, miss_queue := [], miss_queue_status := .IN_L1_MISS_QUEUE
    mshrs := { num_entries := 8, max_merge := 4
               entries := [(0, [atomicFetch])], current_response := [] }
    tag_array := { blocks := [reservedLine 0 [true, false, false, false] (some 2) 3]
                   num_dirty := 0 }
    pending := [(7, { valid := true, block_addr := 0, addr := 0, cache_index := 0
                      data_size := 32, pending_reads := 0 })]
    bandwidth := bw0, stats := [] }

/-- The response fetch filling line 0 (same unique id as the pending
atomic fetch). -/
def fillFetch : MemFetch :=
  { atomicFetch with access := { atomicFetch.access with addr := 0, byte_mask := 3 } }

/-- Base cache state in which every way of the set is RESERVED, so a
probe of any other line finds no replaceable victim. -/
def reservedBase : BaseCache :=
  { base1 with tag_array :=
      { blocks := [{ block_addr := 0
                     sector_status := [.RESERVED, .RESERVED, .RESERVED, .RESERVED]
                     readable := [false, false, false, false]
                     dirty_byte_mask := 0, last_access_time := 0, fill_time := 0
                     allocation := none }]
        num_dirty := 0 } }

/-- Data cache over `reservedBase`. -/
def dataReserved : DataCache := { dataWB with inner := reservedBase }

/-- Supervised warps with dynamic ids 0, 1 and 2. -/
def warp0 : SchedulerWarp := { block_id := 0, dynamic_warp_id := 0, warp_id := 0, kernel_id := 0 }

/-- Second supervised warp. -/
def warp1 : SchedulerWarp := { block_id := 0, dynamic_warp_id := 1, warp_id := 1, kernel_id := 0 }

/-- Third supervised warp. -/
def warp2 : SchedulerWarp := { block_id := 0, dynamic_warp_id := 2, warp_id := 2, kernel_id := 0 }

/-- Linear-scheme translation configuration: 2 threads per core,
core 0 of 2 cores. -/
def linCfg0 : LocalTranslateConfig :=
  { local_mem_map := false, max_threads_per_core := 2, thread_block_size := 1
    max_blocks_per_shader := 1, core_id := 0 }

/-- The same configuration on core 1. -/
def linCfg1 : LocalTranslateConfig := { linCfg0 with core_id := 1 }

/-- The statistic selection as the specification words it: HIT_RESERVED
if the probe was HIT_RESERVED and the access did not reservation-fail;
SECTOR_MISS if the probe was SECTOR_MISS and the access did not become
MISS; otherwise the access status. -/
def select_stat_status_spec (probe_status access_status : RequestStatus) :
    RequestStatus :=
  if probe_status = .HIT_RESERVED ∧ access_status ≠ .RESERVATION_FAIL then
    RequestStatus.HIT_RESERVED
  else if probe_status = .SECTOR_MISS ∧ access_status ≠ .MISS then
    RequestStatus.SECTOR_MISS
  else access_status

/-- A read-miss or write-allocate handler outcome failing with the
MISS_QUEUE_FULL sub-reason: the status is RESERVATION_FAIL and exactly
one MISS_QUEUE_FULL reservation-failure record was appended for the
access kind of the fetch. -/
def fails_with_miss_queue_full (d : DataCache) (fetch : MemFetch)
    (r : Option HandlerResult) : Prop :=
  ∃ res, r = some res ∧
    res.status = .RESERVATION_FAIL ∧
    res.cache.inner.stats = d.inner.stats ++
      [(fetch.access_kind, .ReservationFailure .MISS_QUEUE_FULL)]

/-- Claim C1.  Counter-evidence on the writeback half of the claim: at a
read access whose probe is a MISS replacing a MODIFIED line (the resident
block of `dataWB` is modified) under the WRITE_BACK (non write-through)
policy, `read_miss` reserves the line and enqueues the read fetch of
atom size at the MSHR address, but the miss queue afterwards holds only
that read fetch: no writeback fetch was synthesized, because
`send_read_request` returns its `write_allocate` argument in place of
the computed writeback flag. -/
theorem read_miss_modified_eviction_drops_writeback :
    (taMod.get_block 0).is_modified = true ∧
    cfgWB.write_policy = .WRITE_BACK ∧
    ((dataWB.read_miss 128 0 readFetch 10 [] .MISS).map fun h => h.status) =
      some .MISS ∧
    ((dataWB.read_miss 128 0 readFetch 10 [] .MISS).map fun h =>
        h.cache.inner.miss_queue.map fun f => (f.access_kind, f.addr, f.data_size)) =
      some [(.GLOBAL_ACC_R, 128, 128)] :=
  ⟨rfl, rfl, rfl, rfl⟩

/-- Claim C3.  Failing run for the fill path of the invariant: filling
line 0 of `fillBase` (previously RESERVED, hence not modified, with
`num_dirty = 0`) marks the line MODIFIED because the merged MSHR access
was atomic, yet `num_dirty` stays 0, because the source checks
`is_modified` only after having set the MODIFIED status. -/
theorem fill_atomic_merge_skips_num_dirty :
    (fillBase.tag_array.get_block 0).is_modified = false ∧
    fillBase.tag_array.num_dirty = 0 ∧
    ((fillBase.fill fillFetch 20).map fun b =>
        (b.tag_array.num_dirty, (b.tag_array.get_block 0).is_modified)) =
      some (0, true) :=
  ⟨rfl, rfl, rfl⟩

/-- Claim C4.  Failing run: with supervised warps of dynamic ids 0, 1, 2
and warp 1 previously issued, the ordered list the code produces is
`[warp1, warp0]`: the `take_while` stops at the previously issued warp
and drops the eligible warp 2, instead of removing only the duplicate
and keeping the warps after it (which would give
`[warp1, warp0, warp2]`). -/
theorem order_warps_truncates_at_last_issued :
    GTOScheduler.order_warps [] [warp0, warp1, warp2] [warp1] 3 =
      ([warp1, warp0], [warp0, warp1, warp2]) ∧
    ([warp1, warp0] : List SchedulerWarp) ≠ [warp1, warp0, warp2] :=
  ⟨rfl, by decide⟩

/-- Claim C5.  Failing run on the write-allocate path: a write to line
128 of `dataWB` evicts the MODIFIED line 0 and enqueues three fetches;
the triggering fetch carries physical chip 9 and sub partition 7, but the
writeback fetch is built with the physical address of the allocation
read, `to_physical_address 128` = (chip 0, sub partition 0): the patched
`tlx_addr` of the source is never used, so chip and sub partition are
not inherited from the triggering fetch. -/
theorem write_allocate_writeback_chip_not_inherited :
    writeFetch.physical_addr.chip = 9 ∧
    writeFetch.physical_addr.sub_partition = 7 ∧
    ((dataWB.cache_access 128 writeFetch [] 10).map fun h => h.status) =
      some .MISS ∧
    ((dataWB.cache_access 128 writeFetch [] 10).map fun h =>
        h.cache.inner.miss_queue.map fun f =>
          (f.access_kind, f.addr, f.physical_addr.chip, f.physical_addr.sub_partition)) =
      some [(.GLOBAL_ACC_W, 128, 9, 7), (.L1_WR_ALLOC_R, 128, 0, 0),
            (.L1_WRBK_ACC, 0, 0, 0)] :=
  ⟨rfl, rfl, rfl, rfl⟩

/-- Claim C6.  The statistic selected per data-cache access
(`select_stat_status`, used by `DataCache.cache_access`) agrees with the
specification wording on every pair of probe and access status. -/
theorem select_stat_status_matches_spec :
    ∀ probe_status access_status,
      select_stat_status probe_status access_status =
        select_stat_status_spec probe_status access_status := by
  intro p a
  cases p <;> cases a <;> rfl

/-- Claim C7, counterexample: under WRITE_THROUGH the write-hit handler
aborts (the unimplemented arm, modelled as `none`) instead of emitting a
lower-level write and returning a status. -/
theorem write_hit_write_through_aborts :
    dataWT.write_hit 128 0 writeFetch 10 [] .RESERVATION_FAIL = none :=
  rfl

/-- Claim C7, amended: under WRITE_THROUGH, WRITE_EVICT or
LOCAL_WB_GLOBAL_WT a data-cache write hit reaches an unimplemented arm
and aborts; no lower-level write is emitted and no status is returned. -/
theorem write_hit_non_write_back_unimplemented :
    ∀ (d : DataCache) (addr cache_index : Nat) (fetch : MemFetch)
      (time : Nat) (events : List Event) (probe_status : RequestStatus),
      (d.inner.cache_config.write_policy = .WRITE_THROUGH ∨
       d.inner.cache_config.write_policy = .WRITE_EVICT ∨
       d.inner.cache_config.write_policy = .LOCAL_WB_GLOBAL_WT) →
      d.write_hit addr cache_index fetch time events probe_status = none := by
  intro d addr cache_index fetch time events probe_status h
  unfold DataCache.write_hit
  rcases h with h | h | h <;> rw [h]

/-- Witness for the amended claim C7 at the concrete write-through
cache. -/
theorem write_hit_non_write_back_unimplemented_witness :
    (dataWT.inner.cache_config.write_policy = .WRITE_THROUGH ∨
     dataWT.inner.cache_config.write_policy = .WRITE_EVICT ∨
     dataWT.inner.cache_config.write_policy = .LOCAL_WB_GLOBAL_WT) ∧
    dataWT.write_hit 128 0 writeFetch 10 [] .RESERVATION_FAIL = none :=
  ⟨Or.inl rfl,
   write_hit_non_write_back_unimplemented dataWT 128 0 writeFetch 10 []
     .RESERVATION_FAIL (Or.inl rfl)⟩

/-- Claim C10.  For the read-only (instruction) cache and the L2 data
cache wrapper, `has_free_fill_port` answers the data-port question: in
every state with a busy fill port and an idle data port both wrappers
report a free fill port, while the bandwidth manager itself reports the
fill port busy. -/
theorem has_free_fill_port_uses_data_port :
    ∀ (ro : ReadOnlyCache) (l2 : DataL2),
      0 < ro.inner.bandwidth.fill_port_occupied_cycles →
      ro.inner.bandwidth.data_port_occupied_cycles = 0 →
      0 < l2.inner.bandwidth.fill_port_occupied_cycles →
      l2.inner.bandwidth.data_port_occupied_cycles = 0 →
      ro.has_free_fill_port = true ∧ l2.has_free_fill_port = true ∧
      ro.inner.bandwidth.has_free_fill_port = false ∧
      l2.inner.bandwidth.has_free_fill_port = false := by
  intro ro l2 hro1 hro2 hl21 hl22
  refine ⟨?_, ?_, ?_, ?_⟩
  · simp [ReadOnlyCache.has_free_fill_port, BandwidthManager.has_free_data_port, hro2]
  · simp [DataL2.has_free_fill_port, BandwidthManager.has_free_data_port, hl22]
  · simp [BandwidthManager.has_free_fill_port]
    omega
  · simp [BandwidthManager.has_free_fill_port]
    omega

/-- Witness for claim C10 at a concrete state with a busy fill port and
an idle data port. -/
theorem has_free_fill_port_uses_data_port_witness :
    (0 < (1 : Nat) ∧
     ReadOnlyCache.has_free_fill_port
        ⟨{ base1 with bandwidth := ⟨0, 1⟩ }⟩ = true) ∧
    DataL2.has_free_fill_port ⟨{ base1 with bandwidth := ⟨0, 1⟩ }⟩ = true :=
  ⟨⟨by decide,
    (has_free_fill_port_uses_data_port ⟨{ base1 with bandwidth := ⟨0, 1⟩ }⟩
      ⟨{ base1 with bandwidth := ⟨0, 1⟩ }⟩ (by decide) rfl (by decide) rfl).1⟩,
   (has_free_fill_port_uses_data_port ⟨{ base1 with bandwidth := ⟨0, 1⟩ }⟩
      ⟨{ base1 with bandwidth := ⟨0, 1⟩ }⟩ (by decide) rfl (by decide) rfl).2.1⟩

/-- Claim C2, counterexample: with `miss_queue_size = 1` and an empty
miss queue, a single read miss is not accepted: the access returns
RESERVATION_FAIL (not MISS) and records the MISS_QUEUE_FULL failure,
because `miss_queue_can_fit 1` demands `len + 1 < miss_queue_size`. -/
theorem miss_queue_size_one_first_read_rejected :
    dataQ1.inner.cache_config.miss_queue_size = 1 ∧
    dataQ1.inner.miss_queue = [] ∧
    ((dataQ1.cache_access 128 readFetch [] 10).map fun h => h.status) =
      some .RESERVATION_FAIL ∧
    ((dataQ1.cache_access 128 readFetch [] 10).map fun h => h.cache.inner.stats) =
      some [(.GLOBAL_ACC_R, .ReservationFailure .MISS_QUEUE_FULL),
            (.GLOBAL_ACC_R, .Status .RESERVATION_FAIL)] ∧
    RequestStatus.RESERVATION_FAIL ≠ RequestStatus.MISS :=
  ⟨rfl, rfl, rfl, rfl, by decide⟩

/-- Case split for `send_read_request`: a successful call either reports
a miss, or fails leaving miss queue, MSHR table, tag array and pending
map untouched and recording exactly one MSHR reservation failure (merge
fail on an MSHR hit, entry fail otherwise). -/
theorem send_read_request_cases (b : BaseCache)
    (addr block_addr cache_index : Nat) (fetch : MemFetch) (time : Nat)
    (events : List Event) (read_only write_allocate : Bool)
    (res : SendReadRequestResult)
    (h : b.send_read_request addr block_addr cache_index fetch time events
      read_only write_allocate = some res) :
    res.should_miss = true ∨
    (res.should_miss = false ∧
      res.base.miss_queue = b.miss_queue ∧ res.base.mshrs = b.mshrs ∧
      res.base.tag_array = b.tag_array ∧ res.base.pending = b.pending ∧
      (res.base.stats = b.stats ++
          [(fetch.access_kind, .ReservationFailure .MSHR_MERGE_ENTRY_FAIL)] ∨
       res.base.stats = b.stats ++
          [(fetch.access_kind, .ReservationFailure .MSHR_ENTRY_FAIL)])) := by
  unfold BaseCache.send_read_request at h
  cases hhit : b.mshrs.probe (b.cache_config.mshr_addr fetch.addr) <;>
    cases hfull : b.mshrs.full (b.cache_config.mshr_addr fetch.addr) <;>
      simp only [hhit, hfull, Bool.true_and, Bool.false_and, Bool.and_true,
        Bool.and_false, Bool.not_true, Bool.not_false, Bool.and_self,
        Bool.false_eq_true, if_true, if_false, Option.some.injEq] at h
  · -- no MSHR hit, MSHR not full: depends on the miss queue
    cases hq : b.miss_queue_full <;>
      simp only [hq, Bool.not_true, Bool.not_false, Bool.false_eq_true,
        if_true, if_false, Option.some.injEq] at h
    · subst h
      left
      rfl
    · exact Option.noConfusion h
  · -- no MSHR hit, MSHR full: entry fail
    subst h
    right
    exact ⟨rfl, rfl, rfl, rfl, rfl, Or.inr rfl⟩
  · -- MSHR hit, not full: merge
    subst h
    left
    rfl
  · -- MSHR hit and full: merge fail
    subst h
    right
    exact ⟨rfl, rfl, rfl, rfl, rfl, Or.inl rfl⟩

/-- Arithmetic reading of a failed `miss_queue_can_fit` check. -/
theorem miss_queue_can_fit_false_iff (b : BaseCache) (n : Nat) :
    b.miss_queue_can_fit n = false ↔
      b.cache_config.miss_queue_size ≤ b.miss_queue.length + n := by
  simp [BaseCache.miss_queue_can_fit, Nat.not_lt]

/-- Arithmetic reading of a successful `miss_queue_can_fit` check. -/
theorem miss_queue_can_fit_true_iff (b : BaseCache) (n : Nat) :
    b.miss_queue_can_fit n = true ↔
      b.miss_queue.length + n < b.cache_config.miss_queue_size := by
  simp [BaseCache.miss_queue_can_fit]

/-- A successful `send_read_request` with a non-full MSHR entry always
reports a miss. -/
theorem send_read_request_should_miss_of_not_full (b : BaseCache)
    (addr block_addr cache_index : Nat) (fetch : MemFetch) (time : Nat)
    (events : List Event) (read_only write_allocate : Bool)
    (res : SendReadRequestResult)
    (h : b.send_read_request addr block_addr cache_index fetch time events
      read_only write_allocate = some res)
    (hfull : b.mshrs.full (b.cache_config.mshr_addr fetch.addr) = false) :
    res.should_miss = true := by
  rcases send_read_request_cases b addr block_addr cache_index fetch time
      events read_only write_allocate res h with hm | ⟨hm, _⟩
  · exact hm
  · exfalso
    unfold BaseCache.send_read_request at h
    cases hhit : b.mshrs.probe (b.cache_config.mshr_addr fetch.addr) <;>
      simp only [hhit, hfull, Bool.true_and, Bool.false_and, Bool.and_true,
        Bool.and_false, Bool.not_true, Bool.not_false, Bool.and_self,
        Bool.false_eq_true, if_true, if_false, Option.some.injEq] at h
    · cases hq : b.miss_queue_full <;>
        simp only [hq, Bool.not_true, Bool.not_false, Bool.false_eq_true,
          if_true, if_false, Option.some.injEq] at h
      · subst h
        simp at hm
      · exact Option.noConfusion h
    · subst h
      simp at hm

/-- One appended statistics record determines the recorded entry. -/
theorem stats_append_single_inj (s : Stats) (a b : AccessKind × AccessStat)
    (h : s ++ [a] = s ++ [b]) : a = b := by
  have := List.append_cancel_left h
  simpa using this

/-- A statistics list never equals itself with one more record. -/
theorem stats_ne_append_single (s : Stats) (a : AccessKind × AccessStat) :
    s ≠ s ++ [a] := by
  intro h
  have := congrArg List.length h
  simp at this

/-- The read-miss handler fails with MISS_QUEUE_FULL exactly when one
more request does not fit the miss queue, that is when
`miss_queue.len() + 1` reaches `miss_queue_size`. -/
theorem read_miss_mqf_iff (d : DataCache) (addr cache_index : Nat)
    (fetch : MemFetch) (time : Nat) (events : List Event)
    (probe_status : RequestStatus) :
    fails_with_miss_queue_full d fetch
      (d.read_miss addr cache_index fetch time events probe_status) ↔
    d.inner.cache_config.miss_queue_size ≤ d.inner.miss_queue.length + 1 := by
  unfold DataCache.read_miss
  cases hfit : d.inner.miss_queue_can_fit 1 with
  | false =>
      have hge := (miss_queue_can_fit_false_iff d.inner 1).mp hfit
      simp only [hfit, Bool.not_false, if_true]
      exact iff_of_true ⟨_, rfl, rfl, rfl⟩ hge
  | true =>
      have hlt := (miss_queue_can_fit_true_iff d.inner 1).mp hfit
      have hnot : ¬ d.inner.cache_config.miss_queue_size ≤
          d.inner.miss_queue.length + 1 := Nat.not_le.mpr hlt
      simp only [hfit, Bool.not_true, Bool.false_eq_true, if_false]
      refine iff_of_false ?_ hnot
      rintro ⟨res2, hres, hstat, habs⟩
      split at hres
      · exact Option.noConfusion hres
      · rename_i res heq
        rcases send_read_request_cases _ _ _ _ _ _ _ _ _ _ heq with
          hsm | ⟨hsm, hq, hm, ht, hp, hst⟩
        · rw [hsm] at hres
          simp only [if_true] at hres
          split at hres <;>
            [skip; (simp only [Option.some.injEq] at hres; subst hres; simp at hstat)]
          split at hres <;>
            (simp only [Option.some.injEq] at hres; subst hres; simp at hstat)
        · rw [hsm] at hres
          simp only [Bool.false_eq_true, if_false, Option.some.injEq] at hres
          subst hres
          rcases hst with hst | hst <;>
            (simp only [hst] at habs;
             have := stats_append_single_inj _ _ _ habs; simp at this)

/-- The naive write-allocate handler fails with MISS_QUEUE_FULL exactly
when two more requests do not fit the miss queue, that is when
`miss_queue.len() + 2` reaches `miss_queue_size`. -/
theorem write_allocate_mqf_iff (d : DataCache) (addr : Nat)
    (cache_index : Option Nat) (fetch : MemFetch) (time : Nat)
    (events : List Event) (probe_status : RequestStatus) :
    fails_with_miss_queue_full d fetch
      (d.write_miss_write_allocate_naive addr cache_index fetch time events
        probe_status) ↔
    d.inner.cache_config.miss_queue_size ≤ d.inner.miss_queue.length + 2 := by
  unfold DataCache.write_miss_write_allocate_naive
  cases hfit : d.inner.miss_queue_can_fit 2 with
  | false =>
      have hge := (miss_queue_can_fit_false_iff d.inner 2).mp hfit
      simp only [hfit, Bool.not_false, Bool.true_or, if_true]
      exact iff_of_true ⟨_, rfl, rfl, rfl⟩ hge
  | true =>
      have hlt := (miss_queue_can_fit_true_iff d.inner 2).mp hfit
      have hnot : ¬ d.inner.cache_config.miss_queue_size ≤
          d.inner.miss_queue.length + 2 := Nat.not_le.mpr hlt
      refine iff_of_false ?_ hnot
      simp only [hfit, Bool.not_true, Bool.false_or]
      rintro ⟨res2, hres, hstat, habs⟩
      cases hhit : d.inner.mshrs.probe (d.inner.cache_config.mshr_addr fetch.addr) <;>
        cases hfull : d.inner.mshrs.full (d.inner.cache_config.mshr_addr fetch.addr) <;>
          simp only [hhit, hfull, Bool.true_and, Bool.false_and, Bool.and_true,
            Bool.and_false, Bool.not_true, Bool.not_false, Bool.and_self,
            Bool.true_or, Bool.false_or, Bool.or_true, Bool.or_false,
            Bool.false_eq_true, if_true, if_false] at hres
      · -- no MSHR hit, MSHR free: depends on the miss queue
        cases hq : d.inner.miss_queue_full <;>
          simp only [hq, Bool.not_true, Bool.not_false, Bool.true_and,
            Bool.and_true, Bool.false_and, Bool.and_false, Bool.true_or,
            Bool.false_or, Bool.or_false, Bool.or_true, Bool.false_eq_true,
            if_true, if_false] at hres
        · -- proceed: push write request, then the allocation read
          split at hres
          · simp only [Option.some.injEq] at hres
            subst hres
            exact stats_ne_append_single _ _ habs
          · rename_i ci heq
            split at hres
            · exact Option.noConfusion hres
            · rename_i res heq2
              have hsm := send_read_request_should_miss_of_not_full _ _ _ _ _ _
                _ _ _ _ heq2 hfull
              rw [hsm] at hres
              simp only [if_true] at hres
              split at hres <;>
                [skip;
                 (simp only [Option.some.injEq] at hres; subst hres; simp at hstat)]
              split at hres <;>
                (simp only [Option.some.injEq] at hres; subst hres; simp at hstat)
        · -- miss queue already full: the impossible-reason panic arm
          exact Option.noConfusion hres
      · -- no MSHR hit, MSHR full: entry fail
        simp only [Option.some.injEq] at hres
        subst hres
        have := stats_append_single_inj _ _ _ habs
        simp at this
      · -- MSHR hit and free: proceed
        split at hres
        · simp only [Option.some.injEq] at hres
          subst hres
          exact stats_ne_append_single _ _ habs
        · rename_i ci heq
          split at hres
          · exact Option.noConfusion hres
          · rename_i res heq2
            have hsm := send_read_request_should_miss_of_not_full _ _ _ _ _ _
              _ _ _ _ heq2 hfull
            rw [hsm] at hres
            simp only [if_true] at hres
            split at hres <;>
              [skip;
               (simp only [Option.some.injEq] at hres; subst hres; simp at hstat)]
            split at hres <;>
              (simp only [Option.some.injEq] at hres; subst hres; simp at hstat)
      · -- MSHR hit, MSHR full: merge fail
        simp only [Option.some.injEq] at hres
        subst hres
        have := stats_append_single_inj _ _ _ habs
        simp at this

/-- Claim C2, amended.  A read miss fails with MISS_QUEUE_FULL exactly
when `miss_queue.len() + 1` reaches `miss_queue_size`, and a naive
write-allocate write miss exactly when `miss_queue.len() + 2` does (the
strict `miss_queue_can_fit` bound of the source); in particular, with
`miss_queue_size = 1` and an empty miss queue a single read miss returns
RESERVATION_FAIL, while with `miss_queue_size = 2` it is accepted and
returns MISS. -/
theorem miss_queue_full_reservation_fail_iff :
    (∀ (d : DataCache) (addr cache_index : Nat) (fetch : MemFetch)
        (time : Nat) (events : List Event) (probe_status : RequestStatus),
        fails_with_miss_queue_full d fetch
          (d.read_miss addr cache_index fetch time events probe_status) ↔
        d.inner.cache_config.miss_queue_size ≤ d.inner.miss_queue.length + 1) ∧
    (∀ (d : DataCache) (addr : Nat) (cache_index : Option Nat)
        (fetch : MemFetch) (time : Nat) (events : List Event)
        (probe_status : RequestStatus),
        fails_with_miss_queue_full d fetch
          (d.write_miss_write_allocate_naive addr cache_index fetch time events
            probe_status) ↔
        d.inner.cache_config.miss_queue_size ≤ d.inner.miss_queue.length + 2) ∧
    ((dataQ1.cache_access 128 readFetch [] 10).map fun h => h.status) =
      some .RESERVATION_FAIL ∧
    ((dataQ2.cache_access 128 readFetch [] 10).map fun h => h.status) =
      some .MISS :=
  ⟨read_miss_mqf_iff, write_allocate_mqf_iff, rfl, rfl⟩

/-- The projection of a data cache claim C9 is about: miss queue, MSHR
table and tag array. -/
def coreState (d : DataCache) : List MemFetch × MshrTable × TagArray :=
  (d.inner.miss_queue, d.inner.mshrs, d.inner.tag_array)

/-- A successful read hit always returns HIT. -/
theorem read_hit_status (d : DataCache) (addr : Nat) (fetch : MemFetch)
    (time : Nat) (events : List Event) (r : HandlerResult)
    (h : d.read_hit addr fetch time events = some r) : r.status = .HIT := by
  unfold DataCache.read_hit at h
  dsimp only at h
  split at h
  · exact Option.noConfusion h
  · split at h <;>
      (simp only [Option.some.injEq] at h; subst h; rfl)

/-- A successful write-back write hit always returns HIT. -/
theorem write_hit_write_back_status (d : DataCache) (addr cache_index : Nat)
    (fetch : MemFetch) (time : Nat) (events : List Event)
    (probe_status : RequestStatus) (r : HandlerResult)
    (h : d.write_hit_write_back addr cache_index fetch time events
      probe_status = some r) : r.status = .HIT := by
  unfold DataCache.write_hit_write_back at h
  dsimp only at h
  split at h
  · exact Option.noConfusion h
  · simp only [Option.some.injEq] at h
    subst h
    rfl

/-- A successful write hit (any policy) always returns HIT. -/
theorem write_hit_status (d : DataCache) (addr cache_index : Nat)
    (fetch : MemFetch) (time : Nat) (events : List Event)
    (probe_status : RequestStatus) (r : HandlerResult)
    (h : d.write_hit addr cache_index fetch time events probe_status =
      some r) : r.status = .HIT := by
  unfold DataCache.write_hit at h
  split at h
  · exact Option.noConfusion h
  · exact write_hit_write_back_status _ _ _ _ _ _ _ _ h
  · exact Option.noConfusion h
  · exact Option.noConfusion h
  · exact Option.noConfusion h

/-- A read miss that returns RESERVATION_FAIL leaves miss queue, MSHR
table and tag array untouched. -/
theorem read_miss_rf_preserves (d : DataCache) (addr cache_index : Nat)
    (fetch : MemFetch) (time : Nat) (events : List Event)
    (probe_status : RequestStatus) (r : HandlerResult)
    (h : d.read_miss addr cache_index fetch time events probe_status = some r)
    (hrf : r.status = .RESERVATION_FAIL) :
    coreState r.cache = coreState d := by
  unfold DataCache.read_miss at h
  dsimp only at h
  split at h
  · simp only [Option.some.injEq] at h
    subst h
    rfl
  · split at h
    · exact Option.noConfusion h
    · rename_i res heq
      rcases send_read_request_cases _ _ _ _ _ _ _ _ _ _ heq with
        hsm | ⟨hsm, hq, hm, ht, hp, hst⟩
      · rw [hsm] at h
        simp only [if_true] at h
        split at h
        · split at h <;>
            (simp only [Option.some.injEq] at h; subst h; simp at hrf)
        · simp only [Option.some.injEq] at h
          subst h
          simp at hrf
      · rw [hsm] at h
        simp only [Bool.false_eq_true, if_false, Option.some.injEq] at h
        subst h
        simp [coreState, hq, hm, ht]

/-- A no-write-allocate write miss that returns RESERVATION_FAIL leaves
miss queue, MSHR table and tag array untouched. -/
theorem write_miss_no_allocate_rf_preserves (d : DataCache) (addr : Nat)
    (cache_index : Option Nat) (fetch : MemFetch) (time : Nat)
    (events : List Event) (probe_status : RequestStatus) (r : HandlerResult)
    (h : d.write_miss_no_write_allocate addr cache_index fetch time events
      probe_status = some r)
    (hrf : r.status = .RESERVATION_FAIL) :
    coreState r.cache = coreState d := by
  unfold DataCache.write_miss_no_write_allocate at h
  dsimp only at h
  split at h
  · simp only [Option.some.injEq] at h
    subst h
    rfl
  · simp only [Option.some.injEq] at h
    subst h
    simp at hrf

/-- A naive write-allocate write miss called with a cache index that
returns RESERVATION_FAIL leaves miss queue, MSHR table and tag array
untouched: once the guard passes the write-through fetch is pushed, but
the subsequent allocation read then always reports a miss. -/
theorem write_allocate_naive_rf_preserves (d : DataCache) (addr ci : Nat)
    (fetch : MemFetch) (time : Nat) (events : List Event)
    (probe_status : RequestStatus) (r : HandlerResult)
    (h : d.write_miss_write_allocate_naive addr (some ci) fetch time events
      probe_status = some r)
    (hrf : r.status = .RESERVATION_FAIL) :
    coreState r.cache = coreState d := by
  unfold DataCache.write_miss_write_allocate_naive at h
  dsimp only at h
  split at h
  · split at h
    · simp only [Option.some.injEq] at h
      subst h
      rfl
    · split at h
      · simp only [Option.some.injEq] at h
        subst h
        rfl
      · split at h
        · simp only [Option.some.injEq] at h
          subst h
          rfl
        · exact Option.noConfusion h
  · rename_i hguard
    have hfree : d.inner.mshrs.full
        (d.inner.cache_config.mshr_addr fetch.addr) = false := by
      rw [Bool.not_eq_true] at hguard
      simp only [Bool.or_eq_false_iff, Bool.not_eq_false', Bool.or_eq_true,
        Bool.and_eq_true, Bool.not_eq_true'] at hguard
      rcases hguard with ⟨-, ⟨⟨-, hfree⟩, -⟩ | ⟨-, hfree⟩⟩ <;> exact hfree
    split at h
    · exact Option.noConfusion h
    · rename_i res heq2
      have hsm := send_read_request_should_miss_of_not_full _ _ _ _ _ _
        _ _ _ _ heq2 hfree
      rw [hsm] at h
      simp only [if_true] at h
      split at h
      · split at h <;>
          (simp only [Option.some.injEq] at h; subst h; simp at hrf)
      · simp only [Option.some.injEq] at h
        subst h
        simp at hrf

/-- A write miss that returns RESERVATION_FAIL leaves miss queue, MSHR
table and tag array untouched, given the call shapes `process_tag_probe`
produces (a cache index is present, or the policy is
NO_WRITE_ALLOCATE). -/
theorem write_miss_rf_preserves (d : DataCache) (addr : Nat)
    (cache_index : Option Nat) (fetch : MemFetch) (time : Nat)
    (events : List Event) (probe_status : RequestStatus) (r : HandlerResult)
    (hctx : (∃ ci, cache_index = some ci) ∨
      d.inner.cache_config.write_allocate_policy = .NO_WRITE_ALLOCATE)
    (h : d.write_miss addr cache_index fetch time events probe_status = some r)
    (hrf : r.status = .RESERVATION_FAIL) :
    coreState r.cache = coreState d := by
  unfold DataCache.write_miss at h
  split at h
  · exact write_miss_no_allocate_rf_preserves _ _ _ _ _ _ _ _ h hrf
  · rcases hctx with ⟨ci, rfl⟩ | hpol
    · exact write_allocate_naive_rf_preserves _ _ _ _ _ _ _ _ h hrf
    · rename_i heq
      rw [hpol] at heq
      simp at heq
  · exact Option.noConfusion h
  · exact Option.noConfusion h

/-- The data port charge never touches miss queue, MSHR table or tag
array, and a probe dispatch that returns RESERVATION_FAIL therefore
leaves all three as they were. -/
theorem process_tag_probe_rf_preserves (d : DataCache) (is_write : Bool)
    (probe : Option (Nat × RequestStatus)) (addr : Nat) (fetch : MemFetch)
    (events : List Event) (time : Nat) (r : HandlerResult)
    (h : d.process_tag_probe is_write probe addr fetch events time = some r)
    (hrf : r.status = .RESERVATION_FAIL) :
    coreState r.cache = coreState d := by
  unfold DataCache.process_tag_probe at h
  rcases probe with _ | ⟨ci, st⟩ <;> cases is_write <;> dsimp only at h
  · -- read access, no replaceable line
    split at h
    · exact Option.noConfusion h
    · rename_i res heq
      split at h
      · exact Option.noConfusion h
      · rename_i bw hbw
        simp only [Option.some.injEq] at h
        subst h
        simp only [Bool.false_eq_true, if_false, Option.some.injEq] at heq
        subst heq
        rfl
  · -- write access, no replaceable line
    split at h
    · exact Option.noConfusion h
    · rename_i res heq
      split at h
      · exact Option.noConfusion h
      · rename_i bw hbw
        simp only [Option.some.injEq] at h
        subst h
        have hrf2 : res.status = .RESERVATION_FAIL := hrf
        simp only [if_true] at heq
        split at heq
        · rename_i hna
          exact write_miss_rf_preserves d addr none fetch time events _ res
            (Or.inr (by simpa using hna)) heq hrf2
        · simp only [Option.some.injEq] at heq
          subst heq
          rfl
  · -- read access with a probed way
    split at h
    · exact Option.noConfusion h
    · rename_i res heq
      split at h
      · exact Option.noConfusion h
      · rename_i bw hbw
        simp only [Option.some.injEq] at h
        subst h
        have hrf2 : res.status = .RESERVATION_FAIL := hrf
        simp only [Bool.false_eq_true, if_false] at heq
        split at heq
        · have := read_hit_status _ _ _ _ _ _ heq
          rw [this] at hrf2
          exact absurd hrf2 (by decide)
        · exact read_miss_rf_preserves d addr ci fetch time events st res heq hrf2
  · -- write access with a probed way
    split at h
    · exact Option.noConfusion h
    · rename_i res heq
      split at h
      · exact Option.noConfusion h
      · rename_i bw hbw
        simp only [Option.some.injEq] at h
        subst h
        have hrf2 : res.status = .RESERVATION_FAIL := hrf
        simp only [if_true] at heq
        split at heq
        · have := write_hit_status _ _ _ _ _ _ _ _ heq
          rw [this] at hrf2
          exact absurd hrf2 (by decide)
        · exact write_miss_rf_preserves d addr (some ci) fetch time events st res
            (Or.inl ⟨ci, rfl⟩) heq hrf2

/-- The exact result of a read access to the fully reserved cache: a
RESERVATION_FAIL that only appends the LINE_ALLOC_FAIL failure and the
RESERVATION_FAIL status to the statistics. -/
def reservedAccessResult : HandlerResult :=
  { cache :=
      { dataReserved with inner :=
          { reservedBase with stats :=
              [(.GLOBAL_ACC_R, .ReservationFailure .LINE_ALLOC_FAIL),
               (.GLOBAL_ACC_R, .Status .RESERVATION_FAIL)] } }
    events := []
    status := .RESERVATION_FAIL }

/-- Claim C9.  Whenever a data-cache access returns RESERVATION_FAIL,
the miss queue, the MSHR table and the tag array are exactly as they
were before the call (only statistics, events and port bookkeeping
differ), so the retry next cycle observes the same state; in particular
the write-allocate write miss never reservation-fails after having
pushed its write-through fetch, because once its guard passes the
allocation read always reports a miss. -/
theorem access_reservation_fail_preserves_state :
    ∀ (d : DataCache) (addr : Nat) (fetch : MemFetch) (events : List Event)
      (time : Nat) (r : HandlerResult),
      d.cache_access addr fetch events time = some r →
      r.status = .RESERVATION_FAIL →
      r.cache.inner.miss_queue = d.inner.miss_queue ∧
      r.cache.inner.mshrs = d.inner.mshrs ∧
      r.cache.inner.tag_array = d.inner.tag_array := by
  intro d addr fetch events time r h hrf
  unfold DataCache.cache_access at h
  dsimp only at h
  split at h
  · exact Option.noConfusion h
  · rename_i res heq
    simp only [Option.some.injEq] at h
    subst h
    have hrf2 : res.status = .RESERVATION_FAIL := hrf
    have hcore := process_tag_probe_rf_preserves d fetch.is_write _ addr fetch
      events time res heq hrf2
    refine ⟨?_, ?_, ?_⟩
    · exact congrArg (fun p => p.1) hcore
    · exact congrArg (fun p => p.2.1) hcore
    · exact congrArg (fun p => p.2.2) hcore

/-- Witness for claim C9 at the fully reserved cache: the access
reservation-fails and the state components are unchanged. -/
theorem access_reservation_fail_preserves_state_witness :
    dataReserved.cache_access 128 readFetch [] 10 = some reservedAccessResult ∧
    (reservedAccessResult.cache.inner.miss_queue = dataReserved.inner.miss_queue ∧
     reservedAccessResult.cache.inner.mshrs = dataReserved.inner.mshrs ∧
     reservedAccessResult.cache.inner.tag_array = dataReserved.inner.tag_array) :=
  ⟨rfl,
   access_reservation_fail_preserves_state dataReserved 128 readFetch [] 10
     reservedAccessResult rfl rfl⟩

/-- Cancel equal multiples of `m` against remainders below `m`. -/
theorem add_mul_cancel_mod (m a b w w2 : Nat) (ha : a < m) (hb : b < m)
    (h : a + m * w = b + m * w2) : a = b := by
  have h1 := congrArg (fun x => x % m) h
  simpa [Nat.add_mul_mod_self_left, Nat.mod_eq_of_lt ha,
    Nat.mod_eq_of_lt hb] using h1

/-- Uniqueness of quotient and remainder below `m`. -/
theorem mul_add_lt_inj (m c t c2 t2 : Nat) (ht : t < m) (ht2 : t2 < m)
    (h : m * c + t = m * c2 + t2) : c = c2 ∧ t = t2 := by
  have hm : 0 < m := by omega
  constructor
  · have h1 := congrArg (fun x => x / m) h
    simpa [Nat.mul_add_div hm, Nat.div_eq_of_lt ht, Nat.div_eq_of_lt ht2] using h1
  · have h1 := congrArg (fun x => x % m) h
    simpa [Nat.mul_add_mod, Nat.mod_eq_of_lt ht, Nat.mod_eq_of_lt ht2] using h1

/-- Every byte of a translated local-memory request lies at
`START + 4 * M * w + thread_base + r` with `r < 4`: a four-byte window
selected by the thread base inside each `4 * max_concurrent` block. -/
theorem mem_translatedBytes_form (cfg : LocalTranslateConfig)
    (la tid N ds START : Nat)
    (hal1 : 4 ≤ ds → ds % 4 = 0 ∧ la % 4 = 0)
    (hal2 : ds < 4 → 0 < ds ∧ (la + ds - 1) / 4 = la / 4)
    (b : Nat) (hb : b ∈ translatedBytes cfg la tid N ds START) :
    ∃ w r, r < 4 ∧
      b = START + 4 * (thread_base_max_concurrent cfg tid N).2 * w +
        (thread_base_max_concurrent cfg tid N).1 + r := by
  simp only [translatedBytes, translate_local_memaddr, Set.mem_setOf_eq] at hb
  by_cases hds : 4 ≤ ds
  · rw [if_pos hds, if_pos hds] at hb
    obtain ⟨a, ha, hab1, hab2⟩ := hb
    simp only [List.mem_map, List.mem_range] at ha
    obtain ⟨i, hi, rfl⟩ := ha
    refine ⟨la / 4 + i, b - ((la / 4 + i) *
      (thread_base_max_concurrent cfg tid N).2 * 4 +
      (thread_base_max_concurrent cfg tid N).1 + START), by omega, ?_⟩
    have hcomm : (la / 4 + i) * (thread_base_max_concurrent cfg tid N).2 * 4 =
        4 * (thread_base_max_concurrent cfg tid N).2 * (la / 4 + i) := by ring
    omega
  · rw [if_neg hds, if_neg hds] at hb
    obtain ⟨a, ha, hab1, hab2⟩ := hb
    simp only [List.mem_singleton] at ha
    subst ha
    obtain ⟨hpos, hdiv⟩ := hal2 (Nat.lt_of_not_le hds)
    have hwin : la % 4 + ds ≤ 4 := by omega
    refine ⟨la / 4, la % 4 + (b - (la / 4 *
      (thread_base_max_concurrent cfg tid N).2 * 4 + la % 4 +
      (thread_base_max_concurrent cfg tid N).1 + START)), by omega, ?_⟩
    have hcomm : la / 4 * (thread_base_max_concurrent cfg tid N).2 * 4 =
        4 * (thread_base_max_concurrent cfg tid N).2 * (la / 4) := by ring
    omega

/-- Local translation configuration from scheme flag, machine geometry
and core id. -/
def mkLocalCfg (lmm : Bool) (maxT padded maxCta core_id : Nat) :
    LocalTranslateConfig :=
  { local_mem_map := lmm, max_threads_per_core := maxT
    thread_block_size := padded, max_blocks_per_shader := maxCta
    core_id := core_id }

/-- Claim C8, counterexample to the claim as stated: under the linear
scheme with 2 threads per core and 2 cores, the pairs (core 0, thread 2)
and (core 1, thread 0) are distinct, meet the alignment preconditions
(aligned 4-byte requests at local address 0) and the stated precondition
`thread_base < 4 * max_concurrent_threads`, yet both translate to the
single address 8, so their byte ranges overlap at byte 8. -/
theorem translate_local_memaddr_overlap :
    ((0, 2) : Nat × Nat) ≠ (1, 0) ∧
    (thread_base_max_concurrent linCfg0 2 2).1 <
      4 * (thread_base_max_concurrent linCfg0 2 2).2 ∧
    (thread_base_max_concurrent linCfg1 0 2).1 <
      4 * (thread_base_max_concurrent linCfg1 0 2).2 ∧
    translate_local_memaddr linCfg0 0 2 2 4 0 = [8] ∧
    translate_local_memaddr linCfg1 0 0 2 4 0 = [8] ∧
    8 ∈ translatedBytes linCfg0 0 2 2 4 0 ∧
    8 ∈ translatedBytes linCfg1 0 0 2 4 0 :=
  ⟨by decide, by decide, by decide, by decide, by decide,
   ⟨8, by decide, by decide, by decide⟩,
   ⟨8, by decide, by decide, by decide⟩⟩

/-- Claim C8, amended.  For two distinct (core, thread) pairs mapped by
the same scheme, with requests meeting the alignment preconditions and
the thread-base bound of the claim, and additionally (forced by the
counterexample) the thread id below `max_threads_per_core` for the
linear scheme, and the core id below `num_cores` (with a positive padded
block size) for the strided scheme, the byte ranges of the translated
addresses are disjoint. -/
theorem translate_local_memaddr_disjoint :
    ∀ (lmm : Bool) (maxT padded maxCta N cA tA cB tB laA dsA laB dsB START : Nat),
      (cA, tA) ≠ (cB, tB) →
      (thread_base_max_concurrent (mkLocalCfg lmm maxT padded maxCta cA) tA N).1 <
        4 * (thread_base_max_concurrent (mkLocalCfg lmm maxT padded maxCta cA) tA N).2 →
      (thread_base_max_concurrent (mkLocalCfg lmm maxT padded maxCta cB) tB N).1 <
        4 * (thread_base_max_concurrent (mkLocalCfg lmm maxT padded maxCta cB) tB N).2 →
      (lmm = false → tA < maxT ∧ tB < maxT) →
      (lmm = true → cA < N ∧ cB < N ∧ 0 < padded) →
      (4 ≤ dsA → dsA % 4 = 0 ∧ laA % 4 = 0) →
      (dsA < 4 → 0 < dsA ∧ (laA + dsA - 1) / 4 = laA / 4) →
      (4 ≤ dsB → dsB % 4 = 0 ∧ laB % 4 = 0) →
      (dsB < 4 → 0 < dsB ∧ (laB + dsB - 1) / 4 = laB / 4) →
      ∀ b, b ∈ translatedBytes (mkLocalCfg lmm maxT padded maxCta cA) laA tA N
              dsA START →
           b ∈ translatedBytes (mkLocalCfg lmm maxT padded maxCta cB) laB tB N
              dsB START →
           False := by
  intro lmm maxT padded maxCta N cA tA cB tB laA dsA laB dsB START
  intro hne hbA hbB hlin hstr halA1 halA2 halB1 halB2 b hmA hmB
  obtain ⟨wA, rA, hrA, hfA⟩ :=
    mem_translatedBytes_form _ _ _ _ _ _ halA1 halA2 b hmA
  obtain ⟨wB, rB, hrB, hfB⟩ :=
    mem_translatedBytes_form _ _ _ _ _ _ halB1 halB2 b hmB
  cases lmm with
  | false =>
      obtain ⟨htA, htB⟩ := hlin rfl
      have heqA : thread_base_max_concurrent
          (mkLocalCfg false maxT padded maxCta cA) tA N =
          (4 * (maxT * cA + tA), N * maxT) := rfl
      have heqB : thread_base_max_concurrent
          (mkLocalCfg false maxT padded maxCta cB) tB N =
          (4 * (maxT * cB + tB), N * maxT) := rfl
      rw [heqA] at hfA hbA
      rw [heqB] at hfB hbB
      simp only at hfA hfB hbA hbB
      have hxA : maxT * cA + tA < N * maxT := by omega
      have hxB : maxT * cB + tB < N * maxT := by omega
      have hkey : 4 * (maxT * cA + tA) + rA = 4 * (maxT * cB + tB) + rB := by
        refine add_mul_cancel_mod (4 * (N * maxT)) _ _ wA wB (by omega) (by omega) ?_
        have hc1 : 4 * (N * maxT) * wA = 4 * (N * maxT) * wA := rfl
        omega
      have hx : maxT * cA + tA = maxT * cB + tB := by omega
      have := mul_add_lt_inj maxT cA tA cB tB htA htB hx
      exact hne (by simp [this.1, this.2])
  | true =>
      obtain ⟨hcA, hcB, hpad⟩ := hstr rfl
      have heqA : thread_base_max_concurrent
          (mkLocalCfg true maxT padded maxCta cA) tA N =
          (4 * (padded * (cA + N * (tA / padded)) + tA % padded),
           padded * maxCta * N) := rfl
      have heqB : thread_base_max_concurrent
          (mkLocalCfg true maxT padded maxCta cB) tB N =
          (4 * (padded * (cB + N * (tB / padded)) + tB % padded),
           padded * maxCta * N) := rfl
      rw [heqA] at hfA hbA
      rw [heqB] at hfB hbB
      simp only at hfA hfB hbA hbB
      have hmodA : tA % padded < padded := Nat.mod_lt _ hpad
      have hmodB : tB % padded < padded := Nat.mod_lt _ hpad
      have hkey : 4 * (padded * (cA + N * (tA / padded)) + tA % padded) + rA =
          4 * (padded * (cB + N * (tB / padded)) + tB % padded) + rB := by
        refine add_mul_cancel_mod (4 * (padded * maxCta * N)) _ _ wA wB
          (by omega) (by omega) ?_
        omega
      have hx : padded * (cA + N * (tA / padded)) + tA % padded =
          padded * (cB + N * (tB / padded)) + tB % padded := by omega
      obtain ⟨hq, hr⟩ := mul_add_lt_inj padded _ _ _ _ hmodA hmodB hx
      have hq2 : N * (tA / padded) + cA = N * (tB / padded) + cB := by omega
      obtain ⟨hk, hc⟩ := mul_add_lt_inj N _ _ _ _ hcA hcB hq2
      have htAeq : tA = padded * (tA / padded) + tA % padded :=
        (Nat.div_add_mod tA padded).symm
      have htBeq : tB = padded * (tB / padded) + tB % padded :=
        (Nat.div_add_mod tB padded).symm
      have : tA = tB := by
        rw [htAeq, htBeq, hk, hr]
      exact hne (by simp [hc, this])

/-- Witness for the amended claim C8: two threads of core 0 under the
linear scheme with disjoint translated byte ranges. -/
theorem translate_local_memaddr_disjoint_witness :
    (((0, 0) : Nat × Nat) ≠ (0, 1)) ∧
    (∀ b, b ∈ translatedBytes (mkLocalCfg false 2 1 1 0) 0 0 2 4 0 →
          b ∈ translatedBytes (mkLocalCfg false 2 1 1 0) 0 1 2 4 0 → False) :=
  ⟨by decide,
   translate_local_memaddr_disjoint false 2 1 1 2 0 0 0 1 0 4 0 4 0
     (by decide) (by decide) (by decide) (by decide) (by decide)
     (by decide) (by decide) (by decide) (by decide)⟩
